import Mathlib

/-!
Verification of the spotinst Elastigroup reconciliation task
(upup/pkg/fi/cloudup/spotinsttasks/elastigroup.go).

Shallow embedding conventions:
 - Go pointer fields (`*T`) become `Option T`; a `nil` pointer is `none`.
 - `int64` / `int` values become `Int` (no overflowing arithmetic occurs in this file).
 - `*float64` fields (SpotPercentage, MaxScaleDownPercentage) are carried opaquely as
   `Int`; the source never performs arithmetic on them, it only copies them.
 - Go maps (`map[string]string`) become association lists `List (String × String)`
   whose order is the (run-dependent) iteration order of the map.
 - Referenced tasks (IAMInstanceProfile, LoadBalancer, SSHKey, Subnets,
   SecurityGroups) are represented by the identifying string the source reads
   from them (name or ID).
 - Cloud and provider calls are a `CloudEnv` of result-valued functions; errors
   are `Except String`.
 - Places where the source dereferences a possibly nil pointer unconditionally
   (for example `*e.MinSize` in `update`) are embedded with `Option.getD`; the
   nil case would panic in Go and is outside every property proved here.
-/

namespace SpotinstTasks

/-- Embeds `fi.StringValue`: value of a string pointer, "" when nil. -/
def stringValue (s : Option String) : String := s.getD ""

/-- Embeds `fi.Int64Value` / `fi.IntValue`: value of an int pointer, 0 when nil. -/
def int64Value (i : Option Int) : Int := i.getD 0

/-- Character-list test used to embed `strings.HasPrefix`. -/
def charsStartWith : List Char → List Char → Bool
  | [], _ => true
  | _ :: _, [] => false
  | a :: as, b :: bs => a == b && charsStartWith as bs

/-- Character-list test used to embed `strings.Contains`. -/
def charsContainSub (sub : List Char) : List Char → Bool
  | [] => sub.isEmpty
  | c :: rest => charsStartWith sub (c :: rest) || charsContainSub sub rest

/-- Embeds `strings.Contains(s, sub)`. -/
def strContainsSub (s sub : String) : Bool := charsContainSub sub.data s.data

/-- Embeds `strings.HasPrefix(s, p)`. -/
def strStartsWith (s p : String) : Bool := charsStartWith p.data s.data

/-- Embeds `strings.TrimPrefix(s, p)` under the assumption the test succeeded:
drops the first n characters. -/
def strDropChars (s : String) (n : Nat) : String := String.mk (s.data.drop n)

/-- The `Orientation` string enumeration of the source. -/
inductive Orientation where
  | balanced
  | costOriented
  | availabilityOriented
  | equalAzDistribution
deriving DecidableEq

/-- The underlying string of an `Orientation` constant
(`OrientationBalanced = "balanced"` and so on). -/
def Orientation.toStr : Orientation → String
  | .balanced => "balanced"
  | .costOriented => "costOriented"
  | .availabilityOriented => "availabilityOriented"
  | .equalAzDistribution => "equalAzDistribution"

/-- Embeds `normalizeOrientation`: nil maps to the default `balanced`; the Go
switch recognises exactly "cost", "availability" and "equal-distribution",
every other string falls through to the default. -/
def normalizeOrientation (orientation : Option String) : Orientation :=
  match orientation with
  | none => .balanced
  | some s =>
    if s = "cost" then .costOriented
    else if s = "availability" then .availabilityOriented
    else if s = "equal-distribution" then .equalAzDistribution
    else .balanced

/-- Embeds `RootVolumeOpts`. -/
structure RootVolumeOpts where
  type : Option String := none
  size : Option Int := none
  iops : Option Int := none
  throughput : Option Int := none
  optimization : Option Bool := none
deriving DecidableEq

/-- Embeds `AutoScalerHeadroomOpts`. -/
structure AutoScalerHeadroomOpts where
  cpuPerUnit : Option Int := none
  gpuPerUnit : Option Int := none
  memPerUnit : Option Int := none
  numOfUnits : Option Int := none
deriving DecidableEq

/-- Embeds `AutoScalerDownOpts` (MaxPercentage is a float carried opaquely). -/
structure AutoScalerDownOpts where
  maxPercentage : Option Int := none
  evaluationPeriods : Option Int := none
deriving DecidableEq

/-- Embeds `AutoScalerResourceLimitsOpts`. -/
structure AutoScalerResourceLimitsOpts where
  maxVCPU : Option Int := none
  maxMemory : Option Int := none
deriving DecidableEq

/-- Embeds `AutoScalerOpts`; `labels` is the iteration-ordered view of the Go
map, `taints` keeps (key, value, effect) of each `corev1.Taint`. -/
structure AutoScalerOpts where
  enabled : Option Bool := none
  autoConfig : Option Bool := none
  autoHeadroomPercentage : Option Int := none
  clusterID : Option String := none
  cooldown : Option Int := none
  labels : Option (List (String × String)) := none
  taints : Option (List (String × String × String)) := none
  headroom : Option AutoScalerHeadroomOpts := none
  down : Option AutoScalerDownOpts := none
  resourceLimits : Option AutoScalerResourceLimitsOpts := none
deriving DecidableEq

/-- Embeds the `Elastigroup` task struct. Reference fields carry the string the
source reads from the referenced task. -/
structure Elastigroup where
  name : Option String := none
  lifecycle : Option String := none
  id : Option String := none
  region : Option String := none
  minSize : Option Int := none
  maxSize : Option Int := none
  spotPercentage : Option Int := none
  utilizeReservedInstances : Option Bool := none
  fallbackToOnDemand : Option Bool := none
  drainingTimeout : Option Int := none
  healthCheckType : Option String := none
  product : Option String := none
  orientation : Option String := none
  tags : Option (List (String × String)) := none
  userData : Option String := none
  imageID : Option String := none
  onDemandInstanceType : Option String := none
  spotInstanceTypes : Option (List String) := none
  iamInstanceProfile : Option String := none
  loadBalancer : Option String := none
  sshKey : Option String := none
  subnets : Option (List String) := none
  securityGroups : Option (List String) := none
  monitoring : Option Bool := none
  associatePublicIP : Option Bool := none
  tenancy : Option String := none
  rootVolumeOpts : Option RootVolumeOpts := none
  autoScalerOpts : Option AutoScalerOpts := none
deriving DecidableEq

/-- The all-nil `&Elastigroup{}` value the renderer compares residual changes
against. -/
def emptyElastigroup : Elastigroup := {}

/-- Embeds `applyDefaults`. Each source step reads only the field it defaults,
so the six sequential in-place updates are one simultaneous field-wise
update. -/
def applyDefaults (e : Elastigroup) : Elastigroup :=
  { e with
    fallbackToOnDemand :=
      if e.fallbackToOnDemand = none then some true else e.fallbackToOnDemand
    utilizeReservedInstances :=
      if e.utilizeReservedInstances = none then some true else e.utilizeReservedInstances
    product :=
      if e.product = none ∨ stringValue e.product = "" then some "Linux/UNIX" else e.product
    orientation :=
      if e.orientation = none ∨ stringValue e.orientation = "" then some "balanced" else e.orientation
    monitoring :=
      if e.monitoring = none then some false else e.monitoring
    healthCheckType :=
      if e.healthCheckType = none then some "K8S_NODE" else e.healthCheckType }

/-- Embeds `fi.RequiredField` (declared outside src/ in upup/pkg/fi; the spec
calls the result a required-field error). -/
def requiredField (key : String) : String := "Field is required: " ++ key

/-- Embeds `CheckChanges`: the only precondition verified before rendering. -/
def checkChanges (_a : Elastigroup) (e : Elastigroup) (_changes : Elastigroup) : Option String :=
  if e.name = none then some (requiredField "Name") else none

/-! Provider payload (`aws.Group` of the spotinst SDK), sparse: every field is
optional; the setters allocate nested structs on demand. -/

/-- Embeds `aws.Tag`. -/
structure AwsTag where
  key : Option String := none
  value : Option String := none
deriving DecidableEq

/-- Embeds `aws.LoadBalancer` (`typ` is the Go `Type` field). -/
structure AwsLoadBalancer where
  name : Option String := none
  typ : Option String := none
deriving DecidableEq

/-- Embeds `aws.LoadBalancersConfig`. -/
structure LoadBalancersConfig where
  loadBalancers : Option (List AwsLoadBalancer) := none
deriving DecidableEq

/-- Embeds `aws.NetworkInterface` (the fields the source sets). -/
structure NetworkInterface where
  description : Option String := none
  deviceIndex : Option Int := none
  deleteOnTermination : Option Bool := none
  associatePublicIPAddress : Option Bool := none
deriving DecidableEq

/-- Embeds `aws.EBS`. -/
structure EBS where
  volumeType : Option String := none
  volumeSize : Option Int := none
  deleteOnTermination : Option Bool := none
  iops : Option Int := none
  throughput : Option Int := none
deriving DecidableEq

/-- Embeds `aws.BlockDeviceMapping`. -/
structure AwsBlockDeviceMapping where
  deviceName : Option String := none
  virtualName : Option String := none
  ebs : Option EBS := none
deriving DecidableEq

/-- Embeds `aws.IAMInstanceProfile`. -/
structure AwsIAMInstanceProfile where
  name : Option String := none
deriving DecidableEq

/-- Embeds `aws.LaunchSpecification` (the fields the source sets). -/
structure LaunchSpecification where
  monitoring : Option Bool := none
  keyPair : Option String := none
  tenancy : Option String := none
  blockDeviceMappings : Option (List AwsBlockDeviceMapping) := none
  imageId : Option String := none
  userData : Option String := none
  iamInstanceProfile : Option AwsIAMInstanceProfile := none
  securityGroupIDs : Option (List String) := none
  networkInterfaces : Option (List NetworkInterface) := none
  loadBalancersConfig : Option LoadBalancersConfig := none
  tags : Option (List AwsTag) := none
  healthCheckType : Option String := none
  ebsOptimized : Option Bool := none
deriving DecidableEq

/-- Embeds `aws.InstanceTypes`. -/
structure InstanceTypes where
  ondemand : Option String := none
  spot : Option (List String) := none
deriving DecidableEq

/-- Embeds `aws.Compute`. -/
structure AwsCompute where
  product : Option String := none
  instanceTypes : Option InstanceTypes := none
  subnetIDs : Option (List String) := none
  launchSpecification : Option LaunchSpecification := none
deriving DecidableEq

/-- Embeds `aws.Capacity`. -/
structure AwsCapacity where
  minimum : Option Int := none
  maximum : Option Int := none
  target : Option Int := none
deriving DecidableEq

/-- Embeds `aws.Strategy`. -/
structure AwsStrategy where
  risk : Option Int := none
  availabilityVsCost : Option String := none
  fallbackToOnDemand : Option Bool := none
  utilizeReservedInstances : Option Bool := none
  drainingTimeout : Option Int := none
deriving DecidableEq

/-- Embeds `aws.AutoScaleHeadroom`. -/
structure AutoScaleHeadroom where
  cpuPerUnit : Option Int := none
  gpuPerUnit : Option Int := none
  memoryPerUnit : Option Int := none
  numOfUnits : Option Int := none
deriving DecidableEq

/-- Embeds `aws.AutoScaleDown`. -/
structure AutoScaleDown where
  maxScaleDownPercentage : Option Int := none
  evaluationPeriods : Option Int := none
deriving DecidableEq

/-- Embeds `aws.AutoScaleLabel`. -/
structure AutoScaleLabel where
  key : Option String := none
  value : Option String := none
deriving DecidableEq

/-- Embeds `aws.AutoScaleKubernetes`. -/
structure AutoScaleKubernetes where
  isEnabled : Option Bool := none
  isAutoConfig : Option Bool := none
  cooldown : Option Int := none
  headroom : Option AutoScaleHeadroom := none
  down : Option AutoScaleDown := none
  labels : Option (List AutoScaleLabel) := none
deriving DecidableEq

/-- Embeds `aws.KubernetesIntegration`. -/
structure KubernetesIntegration where
  integrationMode : Option String := none
  clusterIdentifier : Option String := none
  autoScale : Option AutoScaleKubernetes := none
deriving DecidableEq

/-- Embeds `aws.Integration` (only the Kubernetes arm is used). -/
structure AwsIntegration where
  kubernetes : Option KubernetesIntegration := none
deriving DecidableEq

/-- Embeds `aws.Group`. -/
structure AwsGroup where
  id : Option String := none
  name : Option String := none
  description : Option String := none
  region : Option String := none
  capacity : Option AwsCapacity := none
  strategy : Option AwsStrategy := none
  compute : Option AwsCompute := none
  integration : Option AwsIntegration := none
deriving DecidableEq

/-- The `if group.Strategy == nil { group.Strategy = new(aws.Strategy) }` then
set pattern of the source. -/
def AwsGroup.modStrategy (g : AwsGroup) (f : AwsStrategy → AwsStrategy) : AwsGroup :=
  { g with strategy := some (f (g.strategy.getD {})) }

/-- Allocate-if-nil then set, for `group.Compute`. -/
def AwsGroup.modCompute (g : AwsGroup) (f : AwsCompute → AwsCompute) : AwsGroup :=
  { g with compute := some (f (g.compute.getD {})) }

/-- Allocate-if-nil then set, for `group.Compute.InstanceTypes`. -/
def AwsGroup.modInstanceTypes (g : AwsGroup) (f : InstanceTypes → InstanceTypes) : AwsGroup :=
  g.modCompute fun c => { c with instanceTypes := some (f (c.instanceTypes.getD {})) }

/-- Allocate-if-nil then set, for `group.Compute.LaunchSpecification`. -/
def AwsGroup.modLaunchSpec (g : AwsGroup) (f : LaunchSpecification → LaunchSpecification) : AwsGroup :=
  g.modCompute fun c => { c with launchSpecification := some (f (c.launchSpecification.getD {})) }

/-- Allocate-if-nil then set, for `group.Capacity`. -/
def AwsGroup.modCapacity (g : AwsGroup) (f : AwsCapacity → AwsCapacity) : AwsGroup :=
  { g with capacity := some (f (g.capacity.getD {})) }

/-- Embeds the subset of `ec2.Image` the source reads. -/
structure Image where
  imageId : Option String := none
  rootDeviceName : Option String := none
deriving DecidableEq

/-- The live group data `update` reads back from its own `find` call: the id
it stamps on the payload, `*actual.Capacity.Target` and
`*actual.Compute.LaunchSpecification.ImageID` (both dereferenced
unconditionally by the source, hence carried as plain values). -/
structure FoundGroup where
  id : Option String := none
  capacityTarget : Int := 0
  launchSpecImageId : String := ""
deriving DecidableEq

/-- Result of one provider `Create` call: success with an id, a structured
`client.Errors` collection of sub-error messages, or any other error. -/
inductive CreateResp where
  | ok (id : String)
  | clientErrors (msgs : List String)
  | otherError (msg : String)
deriving DecidableEq

/-- The cloud and provider collaborators consumed by the renderer, each call
site modelled by its result. `base64Encode` stands for the stdlib
`base64.StdEncoding.EncodeToString`, kept abstract as an external pure
function. `createResults n` is the outcome of the n-th `Create` attempt. -/
structure CloudEnv where
  findGroup : Except String FoundGroup
  cloudResolveImage : String → Except String (Option Image)
  findELBByNameTag : String → Except String (Option String)
  findELBV2ByNameTag : String → Except String (Option String)
  machineTypeInfo : String → Except String (List (String × String))
  base64Encode : String → String
  updateResult : Except String Unit
  createResults : Nat → CreateResp

/-- Embeds `resolveImage`: wraps the cloud lookup error and turns a nil image
into a not-found error. -/
def resolveImage (env : CloudEnv) (name : String) : Except String Image :=
  match env.cloudResolveImage name with
  | .error err => .error ("spotinst: unable to resolve image \"" ++ name ++ "\": " ++ err)
  | .ok none => .error ("spotinst: unable to resolve image \"" ++ name ++ "\": not found")
  | .ok (some image) => .ok image

/-- Embeds `awstasks.BlockDeviceMapping` (the fields the source reads/sets). -/
structure BlockDeviceMapping where
  deviceName : Option String := none
  virtualName : Option String := none
  ebsVolumeSize : Option Int := none
  ebsVolumeType : Option String := none
  ebsVolumeIops : Option Int := none
  ebsVolumeThroughput : Option Int := none
  ebsDeleteOnTermination : Option Bool := none
deriving DecidableEq

/-- Embeds `buildEphemeralDevices`: machine-type lookup, one mapping per
ephemeral device (deviceName, virtualName). -/
def buildEphemeralDevices (env : CloudEnv) (machineType : Option String) :
    Except String (List BlockDeviceMapping) := do
  let info ← env.machineTypeInfo (stringValue machineType)
  pure (info.map fun ed => { deviceName := some ed.1, virtualName := some ed.2 })

/-- Embeds `buildRootDevice`. The source takes `volumeOpts *RootVolumeOpts` and
dereferences it unconditionally, so the parameter is the pointee. IOPS is not
supported for gp2 volumes; Throughput is only supported for gp3 volumes. -/
def buildRootDevice (env : CloudEnv) (volumeOpts : RootVolumeOpts) (imageID : Option String) :
    Except String BlockDeviceMapping := do
  let img ← resolveImage env (stringValue imageID)
  let bdm : BlockDeviceMapping :=
    { deviceName := img.rootDeviceName
      ebsVolumeSize := volumeOpts.size
      ebsVolumeType := volumeOpts.type
      ebsDeleteOnTermination := some true }
  let bdm := if volumeOpts.iops ≠ none ∧ stringValue volumeOpts.type ≠ "gp2" then
      { bdm with ebsVolumeIops := volumeOpts.iops } else bdm
  let bdm := if volumeOpts.throughput ≠ none ∧ stringValue volumeOpts.type = "gp3" then
      { bdm with ebsVolumeThroughput := volumeOpts.throughput } else bdm
  pure bdm

/-- Embeds `convertBlockDeviceMapping`: EBS is attached only when one of
delete-on-termination, size or type is set; IOPS is dropped for gp2; Throughput
is kept only for gp3. -/
def convertBlockDeviceMapping (bdmIn : BlockDeviceMapping) : AwsBlockDeviceMapping :=
  let out : AwsBlockDeviceMapping := { deviceName := bdmIn.deviceName, virtualName := bdmIn.virtualName }
  if bdmIn.ebsDeleteOnTermination ≠ none ∨ bdmIn.ebsVolumeSize ≠ none ∨ bdmIn.ebsVolumeType ≠ none then
    let ebs : EBS :=
      { volumeType := bdmIn.ebsVolumeType
        volumeSize := some (int64Value bdmIn.ebsVolumeSize)
        deleteOnTermination := bdmIn.ebsDeleteOnTermination }
    let ebs := if bdmIn.ebsVolumeIops ≠ none ∧ stringValue bdmIn.ebsVolumeType ≠ "gp2" then
        { ebs with iops := some (int64Value bdmIn.ebsVolumeIops) } else ebs
    let ebs := if bdmIn.ebsVolumeThroughput ≠ none ∧ stringValue bdmIn.ebsVolumeType = "gp3" then
        { ebs with throughput := some (int64Value bdmIn.ebsVolumeThroughput) } else ebs
    { out with ebs := some ebs }
  else out

/-- Embeds `buildTags`: the Go map is ranged over in its iteration order. -/
def buildTags (e : Elastigroup) : List AwsTag :=
  (e.tags.getD []).map fun kv => { key := some kv.1, value := some kv.2 }

/-- Embeds `buildAutoScaleLabels`. -/
def buildAutoScaleLabels (labelsMap : List (String × String)) : List AutoScaleLabel :=
  labelsMap.map fun kv => { key := some kv.1, value := some kv.2 }

/-! The create path (`create`, lines 492-787): payload build, then the
labeled-jump retry loop around the provider Create call. -/

/-- Embeds the load-balancer block of `create` (lines 640-679): ELB lookup,
set a CLASSIC config when found; NLB lookup, fail when both resolved,
otherwise a NETWORK config (overwriting the CLASSIC one) when the NLB
resolved. -/
def createLoadBalancerStep (env : CloudEnv) (e : Elastigroup) (ls : LaunchSpecification) :
    Except String LaunchSpecification :=
  match e.loadBalancer with
  | none => .ok ls
  | some _ => do
    let lbName := stringValue e.loadBalancer
    let elb ← env.findELBByNameTag lbName
    let ls := match elb with
      | some n =>
        let lb : AwsLoadBalancer := { name := some n, typ := some "CLASSIC" }
        let cfg : LoadBalancersConfig := { loadBalancers := some [lb] }
        { ls with loadBalancersConfig := some cfg }
      | none => ls
    let nlb ← env.findELBV2ByNameTag lbName
    if elb ≠ none ∧ nlb ≠ none then
      .error "found both elb and nlb:"
    else
      match nlb with
      | some n =>
        let lb : AwsLoadBalancer := { name := some n, typ := some "NETWORK" }
        let cfg : LoadBalancersConfig := { loadBalancers := some [lb] }
        pure { ls with loadBalancersConfig := some cfg }
      | none => pure ls

/-- Embeds the launch-specification build of `create` (lines 550-694), in
source order: monitoring, key pair, tenancy, block device mappings (root then
ephemeral), image, user data, IAM instance profile, security groups, public
IP, load balancer, tags, health check. -/
def createLaunchSpec (env : CloudEnv) (e : Elastigroup) : Except String LaunchSpecification := do
  let ls : LaunchSpecification := { monitoring := e.monitoring, keyPair := e.sshKey }
  let ls := match e.tenancy with
    | some _ => { ls with tenancy := e.tenancy }
    | none => ls
  let rootDevice ← buildRootDevice env (e.rootVolumeOpts.getD {}) e.imageID
  let ephemeralDevices ← buildEphemeralDevices env e.onDemandInstanceType
  let mappings := convertBlockDeviceMapping rootDevice ::
    ephemeralDevices.map convertBlockDeviceMapping
  let ls := { ls with blockDeviceMappings := some mappings }
  let image ← resolveImage env (stringValue e.imageID)
  let ls := { ls with imageId := image.imageId }
  let ls := match e.userData with
    | some userData =>
      if userData.length > 0 then
        { ls with userData := some (env.base64Encode userData) }
      else ls
    | none => ls
  let ls := match e.iamInstanceProfile with
    | some _ => { ls with iamInstanceProfile := some { name := e.iamInstanceProfile } }
    | none => ls
  let ls := match e.securityGroups with
    | some sgs => { ls with securityGroupIDs := some sgs }
    | none => ls
  let ls := match e.associatePublicIP with
    | some _ =>
      let iface : NetworkInterface :=
        { description := some "eth0", deviceIndex := some 0,
          deleteOnTermination := some true, associatePublicIPAddress := e.associatePublicIP }
      { ls with networkInterfaces := some [iface] }
    | none => ls
  let ls ← createLoadBalancerStep env e ls
  let ls := match e.tags with
    | some _ => { ls with tags := some (buildTags e) }
    | none => ls
  let ls := match e.healthCheckType with
    | some _ => { ls with healthCheckType := e.healthCheckType }
    | none => ls
  pure ls

/-- Embeds the auto-scaler block of `create` (lines 697-742). -/
def createIntegration (e : Elastigroup) : Option AwsIntegration :=
  match e.autoScalerOpts with
  | none => none
  | some opts =>
    let k8s : KubernetesIntegration :=
      { integrationMode := some "pod", clusterIdentifier := opts.clusterID }
    let k8s :=
      match opts.enabled with
      | none => k8s
      | some _ =>
        let autoScaler : AutoScaleKubernetes :=
          { isEnabled := opts.enabled, isAutoConfig := some true, cooldown := opts.cooldown }
        let autoScaler := match opts.headroom with
          | some headroom =>
            let hr : AutoScaleHeadroom :=
              { cpuPerUnit := headroom.cpuPerUnit, gpuPerUnit := headroom.gpuPerUnit,
                memoryPerUnit := headroom.memPerUnit, numOfUnits := headroom.numOfUnits }
            { autoScaler with isAutoConfig := some false, headroom := some hr }
          | none => autoScaler
        let autoScaler := match opts.down with
          | some down =>
            let dn : AutoScaleDown :=
              { maxScaleDownPercentage := down.maxPercentage,
                evaluationPeriods := down.evaluationPeriods }
            { autoScaler with down := some dn }
          | none => autoScaler
        let autoScaler := match opts.labels with
          | some labels => { autoScaler with labels := some (buildAutoScaleLabels labels) }
          | none => autoScaler
        { k8s with autoScale := some autoScaler }
    some { kubernetes := some k8s }

/-- Embeds the payload build of `create` (lines 492-742): defaults are applied
first, the capacity Target is seeded from MinSize, and MinSize/MaxSize/Name are
dereferenced unconditionally. -/
def createGroupPayload (env : CloudEnv) (e0 : Elastigroup) : Except String AwsGroup := do
  let e := applyDefaults e0
  let ls ← createLaunchSpec env e
  pure
    { name := e.name
      description := e.name
      region := e.region
      capacity := some
        { target := some (e.minSize.getD 0)
          minimum := some (e.minSize.getD 0)
          maximum := some (e.maxSize.getD 0) }
      strategy := some
        { risk := e.spotPercentage
          availabilityVsCost := some (normalizeOrientation e.orientation).toStr
          fallbackToOnDemand := e.fallbackToOnDemand
          utilizeReservedInstances := e.utilizeReservedInstances
          drainingTimeout := e.drainingTimeout }
      compute := some
        { product := e.product
          instanceTypes := some { ondemand := e.onDemandInstanceType, spot := e.spotInstanceTypes }
          subnetIDs := some (e.subnets.getD [])
          launchSpecification := some ls }
      integration := createIntegration e }

/-- The transient error-message substring the retry loop of `create` looks
for. -/
def transientIAMProfileMsg : String := "Invalid IAM Instance Profile name"

/-- The `maxAttempts := 10` budget of the retry loop of `create`. -/
def createMaxAttempts : Nat := 10

/-- Observable outcome of the retry loop of `create`: how many Create calls
were issued, how many seconds were slept in total (one fixed 10s sleep before
every attempt), and the final result. -/
structure CreateOutcome where
  attempts : Nat
  sleepSeconds : Nat
  result : Except String String

/-- Embeds the `readyLoop` of `create` (lines 744-787). Each iteration
increments the attempt counter, sleeps 10 seconds, then calls Create:
success breaks out; a `client.Errors` collection whose first matching
sub-error message contains the transient substring jumps back to the loop
until `attempt > maxAttempts`, at which point the matching sub-error of the
last attempt is surfaced; a collection with no matching message is
immediately fatal. A failure that is not a `client.Errors` falls through the
type assertion and the unconditional `for` retries it without any budget, so
the embedding carries fuel; `none` models that unbounded path. -/
def createLoop (results : Nat → CreateResp) : Nat → Nat → Nat → Option CreateOutcome
  | 0, _, _ => none
  | fuel + 1, attempt0, sleep0 =>
    let attempt := attempt0 + 1
    let sleep := sleep0 + 10
    match results attempt with
    | .ok id => some { attempts := attempt, sleepSeconds := sleep, result := .ok id }
    | .clientErrors msgs =>
      match msgs.find? (fun msg => strContainsSub msg transientIAMProfileMsg) with
      | some msg =>
        if attempt > createMaxAttempts then
          some { attempts := attempt, sleepSeconds := sleep,
                 result := .error ("IAM instance profile not yet created/propagated (original error: " ++ msg ++ ")") }
        else
          createLoop results fuel attempt sleep
      | none =>
        some { attempts := attempt, sleepSeconds := sleep,
               result := .error ("spotinst: failed to create elastigroup: " ++ String.intercalate "; " msgs) }
    | .otherError _ =>
      createLoop results fuel attempt sleep

/-- Embeds `create`: build the payload, then run the retry loop. -/
def create (env : CloudEnv) (e : Elastigroup) (fuel : Nat) : Except String (Option CreateOutcome) := do
  let _group ← createGroupPayload env e
  pure (createLoop env.createResults fuel 0 0)

/-! Discovery (`find`, `Find`, `CheckExisting`) and the executor gate. -/

/-- A live provider group as returned by the List call of the Provider
Adapter; `obj` is the wrapped `aws.Group` data the renderer reads back. -/
structure LiveGroup where
  name : String
  obj : FoundGroup := {}
deriving DecidableEq

/-- Embeds `find` (lines 157-178): List, then a linear scan for the first
group with the requested name; a List error and a missing name are both
returned as errors. -/
def find (listResult : Except String (List LiveGroup)) (name : String) : Except String LiveGroup :=
  match listResult with
  | .error err => .error ("spotinst: failed to find elastigroup " ++ name ++ ": " ++ err)
  | .ok groups =>
    match groups.find? (fun g => g.name == name) with
    | some g => .ok g
    | none => .error ("spotinst: failed to find elastigroup \"" ++ name ++ "\"")

/-- Embeds `CheckExisting`: true iff `find` succeeded. -/
def checkExisting (listResult : Except String (List LiveGroup)) (name : String) : Bool :=
  match find listResult name with
  | .ok _ => true
  | .error _ => false

/-- What the executor decides to do with the task in one pass. -/
inductive Dispatch where
  | createPath
  | updatePath (actual : LiveGroup)
  | abortPass (err : String)
deriving DecidableEq

/-- Modelled from the spec: the reconciliation executor
(`fi.DefaultDeltaRunMethod`, outside src/). Spec section 4.2: the executor
queries the provider for a matching live resource and absence is not an error,
it signals the create path; the task implements `fi.HasCheckExisting`, so the
executor consults `CheckExisting` (false when `find` fails) and skips
discovery entirely when it reports false, dispatching Create; when it reports
true the executor runs Find, and a Find error aborts the pass. -/
def executorDispatch (listResult : Except String (List LiveGroup)) (name : String) : Dispatch :=
  if checkExisting listResult name then
    match find listResult name with
    | .error err => .abortPass err
    | .ok g => .updatePath g
  else .createPath

/-- Embeds the load-balancer block of `Find` (lines 346-379): the live launch
specification lists its load balancers; the first name becomes the actual
reference, and when the desired name differs the desired name is resolved as
NLB then ELB, failing when both resolve simultaneously. Returns the name
recorded on the actual state. -/
def findLoadBalancerActual (env : CloudEnv) (e : Elastigroup)
    (lcLoadBalancerNames : List (Option String)) : Except String (Option String) :=
  match lcLoadBalancerNames with
  | [] => .ok none
  | lbName :: _ =>
    let actualLB := lbName
    if e.loadBalancer ≠ none ∧ stringValue lbName ≠ stringValue e.loadBalancer then do
      let nlb ← env.findELBV2ByNameTag (stringValue e.loadBalancer)
      let actualLB := if nlb ≠ none ∧ stringValue nlb = stringValue lbName then e.loadBalancer else actualLB
      let elb ← env.findELBByNameTag (stringValue e.loadBalancer)
      if elb ≠ none ∧ nlb ≠ none then
        .error ("spotinst: found both aws/elb (" ++ stringValue elb ++ ") and aws/nlb (" ++ stringValue nlb ++ ")")
      else
        pure (if elb ≠ none ∧ stringValue elb = stringValue lbName then e.loadBalancer else actualLB)
    else .ok actualLB

/-- One field of the Delta: desired is recorded iff it differs from actual. -/
def diffField {α : Type} [DecidableEq α] (a e : Option α) : Option α :=
  if e = a then none else e

/-- Modelled from the spec: the executor Delta computation (`fi.BuildChanges`,
outside src/). Spec section 4.3: per field, the desired value is recorded in
the Delta iff it differs from actual by the field equality rule; every rule is
reflexive (value equality by default), which is what the idempotence claim
consumes. -/
def buildChanges (a e : Elastigroup) : Elastigroup :=
  { name := diffField a.name e.name
    lifecycle := diffField a.lifecycle e.lifecycle
    id := diffField a.id e.id
    region := diffField a.region e.region
    minSize := diffField a.minSize e.minSize
    maxSize := diffField a.maxSize e.maxSize
    spotPercentage := diffField a.spotPercentage e.spotPercentage
    utilizeReservedInstances := diffField a.utilizeReservedInstances e.utilizeReservedInstances
    fallbackToOnDemand := diffField a.fallbackToOnDemand e.fallbackToOnDemand
    drainingTimeout := diffField a.drainingTimeout e.drainingTimeout
    healthCheckType := diffField a.healthCheckType e.healthCheckType
    product := diffField a.product e.product
    orientation := diffField a.orientation e.orientation
    tags := diffField a.tags e.tags
    userData := diffField a.userData e.userData
    imageID := diffField a.imageID e.imageID
    onDemandInstanceType := diffField a.onDemandInstanceType e.onDemandInstanceType
    spotInstanceTypes := diffField a.spotInstanceTypes e.spotInstanceTypes
    iamInstanceProfile := diffField a.iamInstanceProfile e.iamInstanceProfile
    loadBalancer := diffField a.loadBalancer e.loadBalancer
    sshKey := diffField a.sshKey e.sshKey
    subnets := diffField a.subnets e.subnets
    securityGroups := diffField a.securityGroups e.securityGroups
    monitoring := diffField a.monitoring e.monitoring
    associatePublicIP := diffField a.associatePublicIP e.associatePublicIP
    tenancy := diffField a.tenancy e.tenancy
    rootVolumeOpts := diffField a.rootVolumeOpts e.rootVolumeOpts
    autoScalerOpts := diffField a.autoScalerOpts e.autoScalerOpts }

/-! The update path (`update`, lines 793-1339). The renderer consumes the
changes value destructively: every handled field is copied into the sparse
payload and then cleared. The body is split into one step per field, composed
in source order. -/

/-- State threaded through `update`: the sparse payload under construction,
the remaining changes value, and the `changed` flag. -/
structure UpdSt where
  g : AwsGroup
  ch : Elastigroup
  changed : Bool

/-- Region block of `update`. -/
def updRegion (e : Elastigroup) (s : UpdSt) : UpdSt :=
  match s.ch.region with
  | none => s
  | some _ =>
    { g := { s.g with region := e.region }, ch := { s.ch with region := none }, changed := true }

/-- Spot percentage block of `update`. -/
def updSpotPercentage (e : Elastigroup) (s : UpdSt) : UpdSt :=
  match s.ch.spotPercentage with
  | none => s
  | some _ =>
    { g := s.g.modStrategy fun st => { st with risk := e.spotPercentage },
      ch := { s.ch with spotPercentage := none }, changed := true }

/-- Orientation block of `update`. -/
def updOrientation (e : Elastigroup) (s : UpdSt) : UpdSt :=
  match s.ch.orientation with
  | none => s
  | some _ =>
    { g := s.g.modStrategy fun st =>
        { st with availabilityVsCost := some (normalizeOrientation e.orientation).toStr },
      ch := { s.ch with orientation := none }, changed := true }

/-- Fallback-to-on-demand block of `update`. -/
def updFallbackToOnDemand (e : Elastigroup) (s : UpdSt) : UpdSt :=
  match s.ch.fallbackToOnDemand with
  | none => s
  | some _ =>
    { g := s.g.modStrategy fun st => { st with fallbackToOnDemand := e.fallbackToOnDemand },
      ch := { s.ch with fallbackToOnDemand := none }, changed := true }

/-- Utilize-reserved-instances block of `update`. -/
def updUtilizeReservedInstances (e : Elastigroup) (s : UpdSt) : UpdSt :=
  match s.ch.utilizeReservedInstances with
  | none => s
  | some _ =>
    { g := s.g.modStrategy fun st =>
        { st with utilizeReservedInstances := e.utilizeReservedInstances },
      ch := { s.ch with utilizeReservedInstances := none }, changed := true }

/-- Draining-timeout block of `update` (the source dereferences
`*e.DrainingTimeout` unconditionally). -/
def updDrainingTimeout (e : Elastigroup) (s : UpdSt) : UpdSt :=
  match s.ch.drainingTimeout with
  | none => s
  | some _ =>
    { g := s.g.modStrategy fun st => { st with drainingTimeout := some (e.drainingTimeout.getD 0) },
      ch := { s.ch with drainingTimeout := none }, changed := true }

/-- Product block of `update`. -/
def updProduct (e : Elastigroup) (s : UpdSt) : UpdSt :=
  match s.ch.product with
  | none => s
  | some _ =>
    { g := s.g.modCompute fun c => { c with product := e.product },
      ch := { s.ch with product := none }, changed := true }

/-- On-demand instance type block of `update`. -/
def updOnDemandInstanceType (e : Elastigroup) (s : UpdSt) : UpdSt :=
  match s.ch.onDemandInstanceType with
  | none => s
  | some _ =>
    { g := s.g.modInstanceTypes fun it => { it with ondemand := e.onDemandInstanceType },
      ch := { s.ch with onDemandInstanceType := none }, changed := true }

/-- Spot instance types block of `update` (the source copies the desired
slice; a nil desired slice copies to an empty one). -/
def updSpotInstanceTypes (e : Elastigroup) (s : UpdSt) : UpdSt :=
  match s.ch.spotInstanceTypes with
  | none => s
  | some _ =>
    { g := s.g.modInstanceTypes fun it => { it with spot := some (e.spotInstanceTypes.getD []) },
      ch := { s.ch with spotInstanceTypes := none }, changed := true }

/-- Subnets block of `update`. -/
def updSubnets (e : Elastigroup) (s : UpdSt) : UpdSt :=
  match s.ch.subnets with
  | none => s
  | some _ =>
    { g := s.g.modCompute fun c => { c with subnetIDs := some (e.subnets.getD []) },
      ch := { s.ch with subnets := none }, changed := true }

/-- Security groups block of `update`. -/
def updSecurityGroups (e : Elastigroup) (s : UpdSt) : UpdSt :=
  match s.ch.securityGroups with
  | none => s
  | some _ =>
    { g := s.g.modLaunchSpec fun ls => { ls with securityGroupIDs := some (e.securityGroups.getD []) },
      ch := { s.ch with securityGroups := none }, changed := true }

/-- User data block of `update`: the desired resource is materialised (a nil
resource would panic in Go, embedded as an error), the payload is touched only
for non-empty user data, and the change field is cleared either way. -/
def updUserData (env : CloudEnv) (e : Elastigroup) (s : UpdSt) : Except String UpdSt :=
  match s.ch.userData with
  | none => .ok s
  | some _ =>
    match e.userData with
    | none => .error "spotinst: cannot render nil user data resource"
    | some userData =>
      let s :=
        if userData.length > 0 then
          let g := s.g.modLaunchSpec (fun ls => { ls with userData := some (env.base64Encode userData) })
          { s with g := g, changed := true }
        else s
      .ok { s with ch := { s.ch with userData := none } }

/-- Network interfaces block of `update` (note: the source wires the changes
value, `changes.AssociatePublicIP`, into the interface). -/
def updAssociatePublicIP (s : UpdSt) : UpdSt :=
  match s.ch.associatePublicIP with
  | none => s
  | some _ =>
    let iface : NetworkInterface :=
      { description := some "eth0", deviceIndex := some 0,
        deleteOnTermination := some true, associatePublicIPAddress := s.ch.associatePublicIP }
    { g := s.g.modLaunchSpec fun ls => { ls with networkInterfaces := some [iface] },
      ch := { s.ch with associatePublicIP := none }, changed := true }

/-- Root volume options block of `update`: device mappings are rebuilt when
type, size or IOPS changed; EBS optimization is taken from the desired opts
(dereferenced unconditionally); the change field is cleared afterwards. -/
def updRootVolumeOpts (env : CloudEnv) (e : Elastigroup) (s : UpdSt) : Except String UpdSt :=
  match s.ch.rootVolumeOpts with
  | none => .ok s
  | some opts => do
    let s ←
      if opts.type ≠ none ∨ opts.size ≠ none ∨ opts.iops ≠ none then do
        let rootDevice ← buildRootDevice env opts e.imageID
        let ephemeralDevices ← buildEphemeralDevices env e.onDemandInstanceType
        let mappings := convertBlockDeviceMapping rootDevice ::
          ephemeralDevices.map convertBlockDeviceMapping
        let g := s.g.modLaunchSpec (fun ls => { ls with blockDeviceMappings := some mappings })
        pure { s with g := g, changed := true }
      else pure s
    let s :=
      if opts.optimization ≠ none then
        let g := s.g.modLaunchSpec (fun ls => { ls with ebsOptimized := (e.rootVolumeOpts.getD {}).optimization })
        { s with g := g, changed := true }
      else s
    pure { s with ch := { s.ch with rootVolumeOpts := none } }

/-- Image block of `update`: resolve the desired image and touch the payload
only when the resolved id differs from the live one. -/
def updImageID (env : CloudEnv) (actual : FoundGroup) (e : Elastigroup) (s : UpdSt) :
    Except String UpdSt :=
  match s.ch.imageID with
  | none => .ok s
  | some _ => do
    let image ← resolveImage env (stringValue e.imageID)
    let s :=
      if actual.launchSpecImageId ≠ stringValue image.imageId then
        let g := s.g.modLaunchSpec (fun ls => { ls with imageId := image.imageId })
        { s with g := g, changed := true }
      else s
    pure { s with ch := { s.ch with imageID := none } }

/-- Tags block of `update`. -/
def updTags (e : Elastigroup) (s : UpdSt) : UpdSt :=
  match s.ch.tags with
  | none => s
  | some _ =>
    { g := s.g.modLaunchSpec fun ls => { ls with tags := some (buildTags e) },
      ch := { s.ch with tags := none }, changed := true }

/-- IAM instance profile block of `update`. -/
def updIAMInstanceProfile (e : Elastigroup) (s : UpdSt) : UpdSt :=
  match s.ch.iamInstanceProfile with
  | none => s
  | some _ =>
    { g := s.g.modLaunchSpec fun ls =>
        { ls with iamInstanceProfile := some { name := e.iamInstanceProfile } },
      ch := { s.ch with iamInstanceProfile := none }, changed := true }

/-- Monitoring block of `update`. -/
def updMonitoring (e : Elastigroup) (s : UpdSt) : UpdSt :=
  match s.ch.monitoring with
  | none => s
  | some _ =>
    { g := s.g.modLaunchSpec fun ls => { ls with monitoring := e.monitoring },
      ch := { s.ch with monitoring := none }, changed := true }

/-- SSH key block of `update`. -/
def updSSHKey (e : Elastigroup) (s : UpdSt) : UpdSt :=
  match s.ch.sshKey with
  | none => s
  | some _ =>
    { g := s.g.modLaunchSpec fun ls => { ls with keyPair := e.sshKey },
      ch := { s.ch with sshKey := none }, changed := true }

/-- Load balancer block of `update` (lines 1154-1199): the ELB lookup runs
first and, when it resolves, the NLB lookup is skipped entirely; whichever
resolved is applied as CLASSIC respectively NETWORK; when neither resolves the
change field is left populated and nothing is applied. -/
def updLoadBalancer (env : CloudEnv) (e : Elastigroup) (s : UpdSt) : Except String UpdSt :=
  match s.ch.loadBalancer with
  | none => .ok s
  | some _ => do
    let lbName := stringValue e.loadBalancer
    let found ←
      match env.findELBByNameTag lbName with
      | .error err => .error ("spotinst: error looking for aws/elb: " ++ err)
      | .ok (some n) => pure (some (n, "CLASSIC"))
      | .ok none =>
        match env.findELBV2ByNameTag lbName with
        | .error err => .error ("spotinst: error looking for aws/nlb: " ++ err)
        | .ok (some n) => pure (some (n, "NETWORK"))
        | .ok none => pure none
    match found with
    | none => pure s
    | some nt =>
      let lb : AwsLoadBalancer := { name := some nt.1, typ := some nt.2 }
      let cfg : LoadBalancersConfig := { loadBalancers := some [lb] }
      pure { g := s.g.modLaunchSpec fun ls => { ls with loadBalancersConfig := some cfg },
             ch := { s.ch with loadBalancer := none }, changed := true }

/-- Tenancy block of `update`. -/
def updTenancy (e : Elastigroup) (s : UpdSt) : UpdSt :=
  match s.ch.tenancy with
  | none => s
  | some _ =>
    { g := s.g.modLaunchSpec fun ls => { ls with tenancy := e.tenancy },
      ch := { s.ch with tenancy := none }, changed := true }

/-- Health check block of `update`. -/
def updHealthCheckType (e : Elastigroup) (s : UpdSt) : UpdSt :=
  match s.ch.healthCheckType with
  | none => s
  | some _ =>
    { g := s.g.modLaunchSpec fun ls => { ls with healthCheckType := e.healthCheckType },
      ch := { s.ch with healthCheckType := none }, changed := true }

/-- MinSize block of `update` (lines 1237-1250): set the capacity Minimum and,
when the live Target is strictly below the desired MinSize, scale the Target
up to the desired MinSize. -/
def updMinSize (actual : FoundGroup) (e : Elastigroup) (s : UpdSt) : UpdSt :=
  match s.ch.minSize with
  | none => s
  | some _ =>
    let g := s.g.modCapacity fun c => { c with minimum := some (e.minSize.getD 0) }
    let g :=
      if actual.capacityTarget < e.minSize.getD 0 then
        g.modCapacity fun c => { c with target := some (e.minSize.getD 0) }
      else g
    { g := g, ch := { s.ch with minSize := none }, changed := true }

/-- MaxSize block of `update` (lines 1251-1259): set the capacity Maximum
only. -/
def updMaxSize (e : Elastigroup) (s : UpdSt) : UpdSt :=
  match s.ch.maxSize with
  | none => s
  | some _ =>
    { g := s.g.modCapacity fun c => { c with maximum := some (e.maxSize.getD 0) },
      ch := { s.ch with maxSize := none }, changed := true }

/-- Auto-scaler block of `update` (lines 1262-1313); `a` is the actual state
from Find, consulted for the reset branches. -/
def updAutoScaler (a e : Elastigroup) (s : UpdSt) : UpdSt :=
  match s.ch.autoScalerOpts with
  | none => s
  | some opts =>
    let s :=
      match opts.enabled with
      | none => s
      | some _ =>
        let eOpts := e.autoScalerOpts.getD {}
        let autoScaler : AutoScaleKubernetes :=
          { isEnabled := eOpts.enabled, cooldown := eOpts.cooldown }
        let autoScaler :=
          match opts.headroom with
          | some _ =>
            let hr := eOpts.headroom.getD {}
            let headroom : AutoScaleHeadroom :=
              { cpuPerUnit := hr.cpuPerUnit, gpuPerUnit := hr.gpuPerUnit,
                memoryPerUnit := hr.memPerUnit, numOfUnits := hr.numOfUnits }
            { autoScaler with isAutoConfig := some false, headroom := some headroom }
          | none =>
            if a.autoScalerOpts ≠ none ∧ (a.autoScalerOpts.getD {}).headroom ≠ none then
              { autoScaler with isAutoConfig := some true, headroom := none }
            else autoScaler
        let autoScaler :=
          match opts.down with
          | some down =>
            let dn : AutoScaleDown :=
              { maxScaleDownPercentage := down.maxPercentage,
                evaluationPeriods := down.evaluationPeriods }
            { autoScaler with down := some dn }
          | none =>
            if (a.autoScalerOpts.getD {}).down ≠ none then
              { autoScaler with down := none }
            else autoScaler
        let autoScaler :=
          match opts.labels with
          | some _ =>
            { autoScaler with labels := some (buildAutoScaleLabels (eOpts.labels.getD [])) }
          | none =>
            if (a.autoScalerOpts.getD {}).labels ≠ none then
              { autoScaler with labels := none }
            else autoScaler
        let k8s : KubernetesIntegration := { autoScale := some autoScaler }
        let integration : AwsIntegration := { kubernetes := some k8s }
        let g : AwsGroup := { s.g with integration := some integration }
        { s with g := g, changed := true }
    { s with ch := { s.ch with autoScalerOpts := none } }

/-- Observable outcome of `update`: the sparse payload that was (or would have
been) sent, the residual changes value after destructive consumption, whether
the coverage-gap warning fired, and whether a provider Update call was
issued. -/
structure UpdateResult where
  group : AwsGroup
  residual : Elastigroup
  warned : Bool
  updateCalled : Bool

/-- Infallible leading segment of `update`, in source order: Region, the
Strategy blocks (spot percentage, orientation, fallback, utilize reserved,
draining timeout), the Compute blocks (product, instance types, subnets) and
the security groups block. -/
def updHead (e : Elastigroup) (s : UpdSt) : UpdSt :=
  updSecurityGroups e (updSubnets e (updSpotInstanceTypes e (updOnDemandInstanceType e
    (updProduct e (updDrainingTimeout e (updUtilizeReservedInstances e
    (updFallbackToOnDemand e (updOrientation e (updSpotPercentage e (updRegion e s))))))))))

/-- Infallible middle segment of `update`, in source order: Tags, IAM
instance profile, Monitoring, SSH key. -/
def updMid (e : Elastigroup) (s : UpdSt) : UpdSt :=
  updSSHKey e (updMonitoring e (updIAMInstanceProfile e (updTags e s)))

/-- Infallible trailing segment of `update`, in source order: Tenancy, Health
check, Capacity (MinSize then MaxSize), Auto Scaler. -/
def updTail (actual : FoundGroup) (a e : Elastigroup) (s : UpdSt) : UpdSt :=
  updAutoScaler a e (updMaxSize e (updMinSize actual e (updHealthCheckType e (updTenancy e s))))

/-- Embeds `update` (lines 793-1339): re-find the live group, stamp its id on
a fresh sparse payload, consume every change field in source order, warn when
the residual changes value is not empty, skip the provider call when nothing
changed, otherwise issue the provider Update and wrap its error. -/
def update (env : CloudEnv) (a e changes : Elastigroup) : Except String UpdateResult :=
  match env.findGroup with
  | .error err => .error err
  | .ok actual =>
    let s := updHead e { g := { id := actual.id }, ch := changes, changed := false }
    match updUserData env e s with
    | .error err => .error err
    | .ok s =>
      let s := updAssociatePublicIP s
      match updRootVolumeOpts env e s with
      | .error err => .error err
      | .ok s =>
        match updImageID env actual e s with
        | .error err => .error err
        | .ok s =>
          let s := updMid e s
          match updLoadBalancer env e s with
          | .error err => .error err
          | .ok s =>
            let s := updTail actual a e s
            let warned := decide (s.ch ≠ emptyElastigroup)
            if s.changed then
              match env.updateResult with
              | .error err => .error ("spotinst: failed to update elastigroup: " ++ err)
              | .ok _ =>
                .ok { group := s.g, residual := s.ch, warned := warned, updateCalled := true }
            else
              .ok { group := s.g, residual := s.ch, warned := warned, updateCalled := false }

/-! The declarative-emission path (`RenderTerraform`, lines 1446-1663). -/

/-- Modelled from the spec: cross-task references render as deferred symbolic
tokens resource-kind.task-name.attribute (`terraformWriter.LiteralProperty`);
the awstasks TerraformLink functions live outside src/, so every reference is
modelled by its deterministic token. -/
def tfLiteralProperty (resType resName attr : String) : String :=
  resType ++ "." ++ resName ++ "." ++ attr

/-- Deferred token of a referenced subnet task. -/
def subnetLink (id : String) : String := tfLiteralProperty "aws_subnet" id "id"

/-- Deferred token of a referenced security-group task. -/
def securityGroupLink (id : String) : String := tfLiteralProperty "aws_security_group" id "id"

/-- Deferred token of a referenced IAM instance profile task. -/
def iamInstanceProfileLink (name : String) : String :=
  tfLiteralProperty "aws_iam_instance_profile" name "id"

/-- Deferred token of a referenced SSH key task. -/
def sshKeyLink (name : String) : String := tfLiteralProperty "aws_key_pair" name "id"

/-- Deferred token of a referenced classic load balancer task. -/
def classicLoadBalancerLink (name : String) : String := tfLiteralProperty "aws_elb" name "id"

/-- Modelled from the spec: the literal returned by the target AddFileResource
(outside src/), a deterministic token of (resource type, resource name,
attribute). -/
def fileResourceLiteral (resType resName attr : String) : String :=
  "file:" ++ resType ++ "_" ++ resName ++ "_" ++ attr

/-- Modelled from the spec / awstasks (outside src/): the tag-key marker used
to extract the role for output-variable aggregation
(`awstasks.CloudTagInstanceGroupRolePrefix`, the key start "k8s.io/role/"). -/
def cloudTagRoleKeyStart : String := "k8s.io/role/"

/-- Embeds `terraformKV`. -/
structure TfKV where
  key : Option String := none
  value : Option String := none
deriving DecidableEq

/-- Embeds `terraformElastigroupNetworkInterface`. -/
structure TfNetworkInterface where
  description : Option String := none
  deviceIndex : Option Int := none
  associatePublicIPAddress : Option Bool := none
  deleteOnTermination : Option Bool := none
deriving DecidableEq

/-- Embeds `terraformElastigroupBlockDevice`. -/
structure TfBlockDevice where
  deviceName : Option String := none
  virtualName : Option String := none
  volumeType : Option String := none
  volumeSize : Option Int := none
  volumeIOPS : Option Int := none
  volumeThroughput : Option Int := none
  deleteOnTermination : Option Bool := none
deriving DecidableEq

/-- Embeds `terraformAutoScalerHeadroom`. -/
structure TfAutoScalerHeadroom where
  cpuPerUnit : Option Int := none
  gpuPerUnit : Option Int := none
  memPerUnit : Option Int := none
  numOfUnits : Option Int := none
deriving DecidableEq

/-- Embeds `terraformAutoScalerDown`. -/
structure TfAutoScalerDown where
  maxPercentage : Option Int := none
  evaluationPeriods : Option Int := none
deriving DecidableEq

/-- Embeds `terraformElastigroupIntegration`. -/
structure TfIntegration where
  integrationMode : Option String := none
  clusterIdentifier : Option String := none
  enabled : Option Bool := none
  autoConfig : Option Bool := none
  cooldown : Option Int := none
  headroom : Option TfAutoScalerHeadroom := none
  down : Option TfAutoScalerDown := none
  labels : Option (List TfKV) := none
deriving DecidableEq

/-- Embeds `terraformElastigroup` (deferred references carried as tokens). -/
structure TerraformElastigroup where
  name : Option String := none
  description : Option String := none
  product : Option String := none
  region : Option String := none
  subnetIDs : List String := []
  loadBalancers : List String := []
  networkInterfaces : List TfNetworkInterface := []
  rootBlockDevice : Option TfBlockDevice := none
  ephemeralBlockDevice : List TfBlockDevice := []
  integration : Option TfIntegration := none
  tags : List TfKV := []
  minSize : Option Int := none
  maxSize : Option Int := none
  desiredCapacity : Option Int := none
  capacityUnit : Option String := none
  spotPercentage : Option Int := none
  orientation : Option String := none
  fallbackToOnDemand : Option Bool := none
  utilizeReservedInstances : Option Bool := none
  drainingTimeout : Option Int := none
  onDemand : Option String := none
  spot : List String := []
  monitoring : Option Bool := none
  ebsOptimized : Option Bool := none
  imageId : Option String := none
  healthCheckType : Option String := none
  securityGroups : List String := []
  userData : Option String := none
  iamInstanceProfile : Option String := none
  keyName : Option String := none
deriving DecidableEq

/-- The full document emitted for one task: the named resource block, the
aggregated output variables (in emission order) and the registered file
resources. -/
structure TfDoc where
  resourceType : String
  resourceName : String
  resource : TerraformElastigroup
  outputs : List (String × String) := []
  files : List (String × String) := []
deriving DecidableEq

/-- Embeds the role-extraction loop of `RenderTerraform` (lines 1480-1489):
fold over the tag keys in map-iteration order; two distinct role suffixes are
fatal. -/
def extractRoleFromKeys (role : String) : List String → Except String String
  | [] => .ok role
  | key :: rest =>
    if strStartsWith key cloudTagRoleKeyStart then
      let suffix := strDropChars key cloudTagRoleKeyStart.length
      if role ≠ "" ∧ role ≠ suffix then
        .error ("spotinst: found multiple role tags \"" ++ role ++ "\" vs \"" ++ suffix ++ "\"")
      else extractRoleFromKeys suffix rest
    else extractRoleFromKeys role rest

/-- Initial `terraformElastigroup` literal of `RenderTerraform`
(lines 1450-1469), built after `applyDefaults`. -/
def tfBase (e : Elastigroup) : TerraformElastigroup :=
  { name := e.name, description := e.name, product := e.product, region := e.region,
    desiredCapacity := e.minSize, minSize := e.minSize, maxSize := e.maxSize,
    capacityUnit := some "instance",
    spotPercentage := e.spotPercentage,
    orientation := some (normalizeOrientation e.orientation).toStr,
    fallbackToOnDemand := e.fallbackToOnDemand,
    utilizeReservedInstances := e.utilizeReservedInstances,
    drainingTimeout := e.drainingTimeout,
    onDemand := e.onDemandInstanceType,
    spot := e.spotInstanceTypes.getD [] }

/-- Image block of `RenderTerraform`. -/
def tfImage (env : CloudEnv) (e : Elastigroup) (tf : TerraformElastigroup) :
    Except String TerraformElastigroup :=
  match e.imageID with
  | none => .ok tf
  | some _ => do
    let image ← resolveImage env (stringValue e.imageID)
    pure { tf with imageId := image.imageId }

/-- Security groups block of `RenderTerraform`: links plus one output variable
per group when a role was extracted. -/
def tfSecurityGroups (role : String) (e : Elastigroup) (tf : TerraformElastigroup) :
    TerraformElastigroup × List (String × String) :=
  let sgs := e.securityGroups.getD []
  ({ tf with securityGroups := sgs.map securityGroupLink },
   if role ≠ "" then sgs.map (fun sg => (role ++ "_security_groups", securityGroupLink sg)) else [])

/-- User data block of `RenderTerraform`: register a file resource and emit
its deferred token. -/
def tfUserData (e : Elastigroup) (tf : TerraformElastigroup) :
    TerraformElastigroup × List (String × String) :=
  match e.userData with
  | some _ =>
    let userDataToken := fileResourceLiteral "spotinst_elastigroup_aws" (stringValue e.name) "user_data"
    ({ tf with userData := some userDataToken },
      [("spotinst_elastigroup_aws_" ++ stringValue e.name ++ "_user_data", e.userData.getD "")])
  | none => (tf, [])

/-- IAM instance profile block of `RenderTerraform`. -/
def tfIAMInstanceProfile (e : Elastigroup) (tf : TerraformElastigroup) : TerraformElastigroup :=
  match e.iamInstanceProfile with
  | some n => { tf with iamInstanceProfile := some (iamInstanceProfileLink n) }
  | none => tf

/-- Monitoring block of `RenderTerraform`. -/
def tfMonitoring (e : Elastigroup) (tf : TerraformElastigroup) : TerraformElastigroup :=
  match e.monitoring with
  | some _ => { tf with monitoring := e.monitoring }
  | none => tf

/-- Health check block of `RenderTerraform`. -/
def tfHealthCheck (e : Elastigroup) (tf : TerraformElastigroup) : TerraformElastigroup :=
  match e.healthCheckType with
  | some _ => { tf with healthCheckType := e.healthCheckType }
  | none => tf

/-- SSH key block of `RenderTerraform`. -/
def tfSSHKey (e : Elastigroup) (tf : TerraformElastigroup) : TerraformElastigroup :=
  match e.sshKey with
  | some n => { tf with keyName := some (sshKeyLink n) }
  | none => tf

/-- Subnets block of `RenderTerraform`: links plus one output variable per
subnet when a role was extracted. -/
def tfSubnets (role : String) (e : Elastigroup) (tf : TerraformElastigroup) :
    TerraformElastigroup × List (String × String) :=
  let subnets := e.subnets.getD []
  ({ tf with subnetIDs := subnets.map subnetLink },
   if role ≠ "" then subnets.map (fun sn => (role ++ "_subnet_ids", subnetLink sn)) else [])

/-- Load balancer block of `RenderTerraform`. -/
def tfLoadBalancers (e : Elastigroup) (tf : TerraformElastigroup) : TerraformElastigroup :=
  match e.loadBalancer with
  | some n => { tf with loadBalancers := [classicLoadBalancerLink n] }
  | none => tf

/-- Public IP block of `RenderTerraform`. -/
def tfPublicIP (e : Elastigroup) (tf : TerraformElastigroup) : TerraformElastigroup :=
  match e.associatePublicIP with
  | some _ =>
    let iface : TfNetworkInterface :=
      { description := some "eth0", deviceIndex := some 0,
        deleteOnTermination := some true, associatePublicIPAddress := e.associatePublicIP }
    { tf with networkInterfaces := [iface] }
  | none => tf

/-- Root volume options block of `RenderTerraform` (lines 1559-1601): the
root block device is rebuilt exactly as in the direct-apply path, ephemeral
devices are appended and EBS optimization is copied. -/
def tfRootVolume (env : CloudEnv) (e : Elastigroup) (tf : TerraformElastigroup) :
    Except String TerraformElastigroup :=
  match e.rootVolumeOpts with
  | none => .ok tf
  | some opts => do
    let rootDevice ← buildRootDevice env opts e.imageID
    let rbd : TfBlockDevice :=
      { deviceName := rootDevice.deviceName, volumeType := rootDevice.ebsVolumeType,
        volumeSize := rootDevice.ebsVolumeSize, volumeIOPS := rootDevice.ebsVolumeIops,
        volumeThroughput := rootDevice.ebsVolumeThroughput, deleteOnTermination := some true }
    let tf := { tf with rootBlockDevice := some rbd }
    let ephemeralDevices ← buildEphemeralDevices env e.onDemandInstanceType
    let tf :=
      if ephemeralDevices.length ≠ 0 then
        let ebds := ephemeralDevices.map fun bdm =>
          ({ deviceName := bdm.deviceName, virtualName := bdm.virtualName } : TfBlockDevice)
        { tf with ephemeralBlockDevice := ebds }
      else tf
    let tf := match opts.optimization with
      | some _ => { tf with ebsOptimized := opts.optimization }
      | none => tf
    pure tf

/-- Auto-scaler block of `RenderTerraform` (lines 1603-1647). -/
def tfAutoScaler (e : Elastigroup) (tf : TerraformElastigroup) : TerraformElastigroup :=
  match e.autoScalerOpts with
  | none => tf
  | some opts =>
    let integ : TfIntegration :=
      { integrationMode := some "pod", clusterIdentifier := opts.clusterID }
    let integ := match opts.enabled with
      | none => integ
      | some _ =>
        let integ := { integ with enabled := opts.enabled, autoConfig := some true, cooldown := opts.cooldown }
        let integ := match opts.headroom with
          | some headroom =>
            let hr : TfAutoScalerHeadroom :=
              { cpuPerUnit := headroom.cpuPerUnit, gpuPerUnit := headroom.gpuPerUnit,
                memPerUnit := headroom.memPerUnit, numOfUnits := headroom.numOfUnits }
            { integ with autoConfig := some false, headroom := some hr }
          | none => integ
        let integ := match opts.down with
          | some down =>
            let dn : TfAutoScalerDown :=
              { maxPercentage := down.maxPercentage, evaluationPeriods := down.evaluationPeriods }
            { integ with down := some dn }
          | none => integ
        let integ := match opts.labels with
          | some labels =>
            let kvs := labels.map fun kv => ({ key := some kv.1, value := some kv.2 } : TfKV)
            { integ with labels := some kvs }
          | none => integ
        integ
    { tf with integration := some integ }

/-- Tags block of `RenderTerraform` (lines 1649-1660): `buildTags` output in
map-iteration order. -/
def tfTags (e : Elastigroup) (tf : TerraformElastigroup) : TerraformElastigroup :=
  match e.tags with
  | some _ =>
    let kvs := (buildTags e).map fun t => ({ key := t.key, value := t.value } : TfKV)
    { tf with tags := kvs }
  | none => tf

/-- The infallible reference blocks of `RenderTerraform` between role
extraction and the root-volume block, in source order: security groups (with
output variables), user data (with file resources), IAM instance profile,
monitoring, health check, SSH key, subnets (with output variables), load
balancer, public IP. Returns the updated resource, the output variables and
the file resources. -/
def tfPureRefs (role : String) (e : Elastigroup) (tf : TerraformElastigroup) :
    TerraformElastigroup × List (String × String) × List (String × String) :=
  let tfOut := tfSecurityGroups role e tf
  let tfFiles := tfUserData e tfOut.1
  let tf := tfSSHKey e (tfHealthCheck e (tfMonitoring e (tfIAMInstanceProfile e tfFiles.1)))
  let tfOut2 := tfSubnets role e tf
  let tf := tfPublicIP e (tfLoadBalancers e tfOut2.1)
  (tf, tfOut.2 ++ tfOut2.2, tfFiles.2)

/-- Embeds `RenderTerraform` (lines 1446-1663): defaults applied first, the
full desired specification serialized (never the Delta), references emitted as
deferred tokens, Tags and auto-scaler Labels ranged over in map-iteration
order. Blocks are applied in source order. -/
def renderTerraform (env : CloudEnv) (e0 : Elastigroup) : Except String TfDoc := do
  let e := applyDefaults e0
  let tf := tfBase e
  let tf ← tfImage env e tf
  let role ← extractRoleFromKeys "" ((e.tags.getD []).map Prod.fst)
  let refs := tfPureRefs role e tf
  let tf ← tfRootVolume env e refs.1
  let tf := tfAutoScaler e tf
  let tf := tfTags e tf
  pure { resourceType := "spotinst_elastigroup_aws", resourceName := stringValue e.name,
         resource := tf, outputs := refs.2.1, files := refs.2.2 }

/-! Destructive consumption of the changes value: each block of `update`
clears exactly its own change field. These lemmas drive the coverage-gap
claim. -/

/-- The region block clears its change field and touches no other. -/
theorem updRegion_ch (e : Elastigroup) (s : UpdSt) :
    (updRegion e s).ch = { s.ch with region := none } := by
  unfold updRegion
  cases h : s.ch.region with
  | none => conv_rhs => rw [← h]
  | some v => rfl

/-- The spotPercentage block clears its change field and touches no other. -/
theorem updSpotPercentage_ch (e : Elastigroup) (s : UpdSt) :
    (updSpotPercentage e s).ch = { s.ch with spotPercentage := none } := by
  unfold updSpotPercentage
  cases h : s.ch.spotPercentage with
  | none => conv_rhs => rw [← h]
  | some v => rfl

/-- The orientation block clears its change field and touches no other. -/
theorem updOrientation_ch (e : Elastigroup) (s : UpdSt) :
    (updOrientation e s).ch = { s.ch with orientation := none } := by
  unfold updOrientation
  cases h : s.ch.orientation with
  | none => conv_rhs => rw [← h]
  | some v => rfl

/-- The fallbackToOnDemand block clears its change field and touches no other. -/
theorem updFallbackToOnDemand_ch (e : Elastigroup) (s : UpdSt) :
    (updFallbackToOnDemand e s).ch = { s.ch with fallbackToOnDemand := none } := by
  unfold updFallbackToOnDemand
  cases h : s.ch.fallbackToOnDemand with
  | none => conv_rhs => rw [← h]
  | some v => rfl

/-- The utilizeReservedInstances block clears its change field and touches no other. -/
theorem updUtilizeReservedInstances_ch (e : Elastigroup) (s : UpdSt) :
    (updUtilizeReservedInstances e s).ch = { s.ch with utilizeReservedInstances := none } := by
  unfold updUtilizeReservedInstances
  cases h : s.ch.utilizeReservedInstances with
  | none => conv_rhs => rw [← h]
  | some v => rfl

/-- The drainingTimeout block clears its change field and touches no other. -/
theorem updDrainingTimeout_ch (e : Elastigroup) (s : UpdSt) :
    (updDrainingTimeout e s).ch = { s.ch with drainingTimeout := none } := by
  unfold updDrainingTimeout
  cases h : s.ch.drainingTimeout with
  | none => conv_rhs => rw [← h]
  | some v => rfl

/-- The product block clears its change field and touches no other. -/
theorem updProduct_ch (e : Elastigroup) (s : UpdSt) :
    (updProduct e s).ch = { s.ch with product := none } := by
  unfold updProduct
  cases h : s.ch.product with
  | none => conv_rhs => rw [← h]
  | some v => rfl

/-- The onDemandInstanceType block clears its change field and touches no other. -/
theorem updOnDemandInstanceType_ch (e : Elastigroup) (s : UpdSt) :
    (updOnDemandInstanceType e s).ch = { s.ch with onDemandInstanceType := none } := by
  unfold updOnDemandInstanceType
  cases h : s.ch.onDemandInstanceType with
  | none => conv_rhs => rw [← h]
  | some v => rfl

/-- The spotInstanceTypes block clears its change field and touches no other. -/
theorem updSpotInstanceTypes_ch (e : Elastigroup) (s : UpdSt) :
    (updSpotInstanceTypes e s).ch = { s.ch with spotInstanceTypes := none } := by
  unfold updSpotInstanceTypes
  cases h : s.ch.spotInstanceTypes with
  | none => conv_rhs => rw [← h]
  | some v => rfl

/-- The subnets block clears its change field and touches no other. -/
theorem updSubnets_ch (e : Elastigroup) (s : UpdSt) :
    (updSubnets e s).ch = { s.ch with subnets := none } := by
  unfold updSubnets
  cases h : s.ch.subnets with
  | none => conv_rhs => rw [← h]
  | some v => rfl

/-- The securityGroups block clears its change field and touches no other. -/
theorem updSecurityGroups_ch (e : Elastigroup) (s : UpdSt) :
    (updSecurityGroups e s).ch = { s.ch with securityGroups := none } := by
  unfold updSecurityGroups
  cases h : s.ch.securityGroups with
  | none => conv_rhs => rw [← h]
  | some v => rfl

/-- The tags block clears its change field and touches no other. -/
theorem updTags_ch (e : Elastigroup) (s : UpdSt) :
    (updTags e s).ch = { s.ch with tags := none } := by
  unfold updTags
  cases h : s.ch.tags with
  | none => conv_rhs => rw [← h]
  | some v => rfl

/-- The iamInstanceProfile block clears its change field and touches no other. -/
theorem updIAMInstanceProfile_ch (e : Elastigroup) (s : UpdSt) :
    (updIAMInstanceProfile e s).ch = { s.ch with iamInstanceProfile := none } := by
  unfold updIAMInstanceProfile
  cases h : s.ch.iamInstanceProfile with
  | none => conv_rhs => rw [← h]
  | some v => rfl

/-- The monitoring block clears its change field and touches no other. -/
theorem updMonitoring_ch (e : Elastigroup) (s : UpdSt) :
    (updMonitoring e s).ch = { s.ch with monitoring := none } := by
  unfold updMonitoring
  cases h : s.ch.monitoring with
  | none => conv_rhs => rw [← h]
  | some v => rfl

/-- The sshKey block clears its change field and touches no other. -/
theorem updSSHKey_ch (e : Elastigroup) (s : UpdSt) :
    (updSSHKey e s).ch = { s.ch with sshKey := none } := by
  unfold updSSHKey
  cases h : s.ch.sshKey with
  | none => conv_rhs => rw [← h]
  | some v => rfl

/-- The tenancy block clears its change field and touches no other. -/
theorem updTenancy_ch (e : Elastigroup) (s : UpdSt) :
    (updTenancy e s).ch = { s.ch with tenancy := none } := by
  unfold updTenancy
  cases h : s.ch.tenancy with
  | none => conv_rhs => rw [← h]
  | some v => rfl

/-- The healthCheckType block clears its change field and touches no other. -/
theorem updHealthCheckType_ch (e : Elastigroup) (s : UpdSt) :
    (updHealthCheckType e s).ch = { s.ch with healthCheckType := none } := by
  unfold updHealthCheckType
  cases h : s.ch.healthCheckType with
  | none => conv_rhs => rw [← h]
  | some v => rfl

/-- The maxSize block clears its change field and touches no other. -/
theorem updMaxSize_ch (e : Elastigroup) (s : UpdSt) :
    (updMaxSize e s).ch = { s.ch with maxSize := none } := by
  unfold updMaxSize
  cases h : s.ch.maxSize with
  | none => conv_rhs => rw [← h]
  | some v => rfl

/-- The network-interfaces block clears its change field and touches no
other. -/
theorem updAssociatePublicIP_ch (s : UpdSt) :
    (updAssociatePublicIP s).ch = { s.ch with associatePublicIP := none } := by
  unfold updAssociatePublicIP
  cases h : s.ch.associatePublicIP with
  | none => conv_rhs => rw [← h]
  | some v => rfl

/-- The MinSize block clears its change field and touches no other. -/
theorem updMinSize_ch (actual : FoundGroup) (e : Elastigroup) (s : UpdSt) :
    (updMinSize actual e s).ch = { s.ch with minSize := none } := by
  unfold updMinSize
  cases h : s.ch.minSize with
  | none => conv_rhs => rw [← h]
  | some v => rfl

/-- The auto-scaler block clears its change field and touches no other. -/
theorem updAutoScaler_ch (a e : Elastigroup) (s : UpdSt) :
    (updAutoScaler a e s).ch = { s.ch with autoScalerOpts := none } := by
  unfold updAutoScaler
  cases h : s.ch.autoScalerOpts with
  | none => conv_rhs => rw [← h]
  | some opts =>
    dsimp only
    cases he : opts.enabled with
    | none => rfl
    | some b => rfl

/-- The user-data block, when it does not fail, clears its change field and
touches no other. -/
theorem updUserData_ch (env : CloudEnv) (e : Elastigroup) (s s2 : UpdSt)
    (h : updUserData env e s = .ok s2) :
    s2.ch = { s.ch with userData := none } := by
  unfold updUserData at h
  cases hc : s.ch.userData with
  | none =>
    rw [hc] at h
    cases h
    conv_rhs => rw [← hc]
  | some ud =>
    rw [hc] at h
    cases he : e.userData with
    | none => rw [he] at h; cases h
    | some userData =>
      rw [he] at h
      dsimp only at h
      by_cases hl : userData.length > 0
      · rw [if_pos hl] at h
        cases h
        rfl
      · rw [if_neg hl] at h
        cases h
        rfl

/-- The root-volume block, when it does not fail, clears its change field and
touches no other. -/
theorem updRootVolumeOpts_ch (env : CloudEnv) (e : Elastigroup) (s s2 : UpdSt)
    (h : updRootVolumeOpts env e s = .ok s2) :
    s2.ch = { s.ch with rootVolumeOpts := none } := by
  unfold updRootVolumeOpts at h
  cases hc : s.ch.rootVolumeOpts with
  | none =>
    rw [hc] at h
    cases h
    conv_rhs => rw [← hc]
  | some opts =>
    rw [hc] at h
    dsimp only at h
    by_cases hcond : opts.type ≠ none ∨ opts.size ≠ none ∨ opts.iops ≠ none
    · rw [if_pos hcond] at h
      cases hbr : buildRootDevice env opts e.imageID with
      | error err =>
        rw [hbr] at h
        simp only [bind, Except.bind] at h
        cases h
      | ok rootDevice =>
        rw [hbr] at h
        simp only [bind, Except.bind] at h
        cases heph : buildEphemeralDevices env e.onDemandInstanceType with
        | error err =>
          rw [heph] at h
          simp only [bind, Except.bind] at h
          cases h
        | ok ephemeralDevices =>
          rw [heph] at h
          simp only [bind, Except.bind, pure, Except.pure] at h
          by_cases hopt : opts.optimization ≠ none
          · rw [if_pos hopt] at h
            cases h
            rfl
          · rw [if_neg hopt] at h
            cases h
            rfl
    · rw [if_neg hcond] at h
      simp only [bind, Except.bind, pure, Except.pure] at h
      by_cases hopt : opts.optimization ≠ none
      · rw [if_pos hopt] at h
        cases h
        rfl
      · rw [if_neg hopt] at h
        cases h
        rfl

/-- The image block, when it does not fail, clears its change field and
touches no other. -/
theorem updImageID_ch (env : CloudEnv) (actual : FoundGroup) (e : Elastigroup) (s s2 : UpdSt)
    (h : updImageID env actual e s = .ok s2) :
    s2.ch = { s.ch with imageID := none } := by
  unfold updImageID at h
  cases hc : s.ch.imageID with
  | none =>
    rw [hc] at h
    cases h
    conv_rhs => rw [← hc]
  | some v =>
    rw [hc] at h
    dsimp only at h
    cases hri : resolveImage env (stringValue e.imageID) with
    | error err =>
      rw [hri] at h
      simp only [bind, Except.bind] at h
      cases h
    | ok image =>
      rw [hri] at h
      simp only [bind, Except.bind, pure, Except.pure] at h
      by_cases hne : actual.launchSpecImageId ≠ stringValue image.imageId
      · rw [if_pos hne] at h
        cases h
        rfl
      · rw [if_neg hne] at h
        cases h
        rfl

/-- The load-balancer block, when it does not fail, either applies and clears
its change field or leaves the state untouched (when neither provider lookup
resolved). -/
theorem updLoadBalancer_ch (env : CloudEnv) (e : Elastigroup) (s s2 : UpdSt)
    (h : updLoadBalancer env e s = .ok s2) :
    s2.ch = { s.ch with loadBalancer := none } ∨ s2.ch = s.ch := by
  unfold updLoadBalancer at h
  cases hc : s.ch.loadBalancer with
  | none =>
    rw [hc] at h
    cases h
    right; rfl
  | some lb =>
    rw [hc] at h
    dsimp only at h
    cases helb : env.findELBByNameTag (stringValue e.loadBalancer) with
    | error err => rw [helb] at h; cases h
    | ok elb =>
      rw [helb] at h
      cases elb with
      | some n =>
        simp only [bind, Except.bind, pure, Except.pure] at h
        cases h
        left; rfl
      | none =>
        cases hnlb : env.findELBV2ByNameTag (stringValue e.loadBalancer) with
        | error err => rw [hnlb] at h; cases h
        | ok nlb =>
          rw [hnlb] at h
          cases nlb with
          | some n =>
            simp only [bind, Except.bind, pure, Except.pure] at h
            cases h
            left; rfl
          | none =>
            simp only [bind, Except.bind, pure, Except.pure] at h
            cases h
            right; rfl

/-- The leading segment clears exactly its eleven change fields. -/
theorem updHead_ch (e : Elastigroup) (s : UpdSt) :
    (updHead e s).ch = { s.ch with
      region := none
      spotPercentage := none
      orientation := none
      fallbackToOnDemand := none
      utilizeReservedInstances := none
      drainingTimeout := none
      product := none
      onDemandInstanceType := none
      spotInstanceTypes := none
      subnets := none
      securityGroups := none } := by
  unfold updHead
  rw [updSecurityGroups_ch, updSubnets_ch, updSpotInstanceTypes_ch, updOnDemandInstanceType_ch,
    updProduct_ch, updDrainingTimeout_ch, updUtilizeReservedInstances_ch,
    updFallbackToOnDemand_ch, updOrientation_ch, updSpotPercentage_ch, updRegion_ch]

/-- The middle segment clears exactly its four change fields. -/
theorem updMid_ch (e : Elastigroup) (s : UpdSt) :
    (updMid e s).ch = { s.ch with
      tags := none
      iamInstanceProfile := none
      monitoring := none
      sshKey := none } := by
  unfold updMid
  rw [updSSHKey_ch, updMonitoring_ch, updIAMInstanceProfile_ch, updTags_ch]

/-- The trailing segment clears exactly its five change fields. -/
theorem updTail_ch (actual : FoundGroup) (a e : Elastigroup) (s : UpdSt) :
    (updTail actual a e s).ch = { s.ch with
      tenancy := none
      healthCheckType := none
      minSize := none
      maxSize := none
      autoScalerOpts := none } := by
  unfold updTail
  rw [updAutoScaler_ch, updMaxSize_ch, updMinSize_ch, updHealthCheckType_ch, updTenancy_ch]

/-! Orientation normalization: helper lemmas showing every renderer emits the
same normalized orientation. -/

/-- Defaulting the orientation does not change its normalization: nil and ""
default to "balanced", which normalizes to the same constant they do. -/
theorem normalizeOrientation_applyDefaults (e : Elastigroup) :
    normalizeOrientation (applyDefaults e).orientation = normalizeOrientation e.orientation := by
  have h : (applyDefaults e).orientation =
      if e.orientation = none ∨ stringValue e.orientation = "" then some "balanced" else e.orientation := rfl
  rw [h]
  split
  · next hc =>
    rcases hc with hc | hc
    · rw [hc]; decide
    · cases ho : e.orientation with
      | none => decide
      | some str =>
        rw [ho] at hc
        simp only [stringValue, Option.getD] at hc
        subst hc
        decide
  · rfl

/-- The image block leaves the emitted orientation unchanged. -/
theorem tfImage_orientation (env : CloudEnv) (e : Elastigroup) (tf tf2 : TerraformElastigroup)
    (h : tfImage env e tf = .ok tf2) : tf2.orientation = tf.orientation := by
  unfold tfImage at h
  cases hc : e.imageID with
  | none => rw [hc] at h; cases h; rfl
  | some v =>
    rw [hc] at h
    dsimp only at h
    cases hri : resolveImage env (stringValue (some v)) with
    | error err => rw [hri] at h; simp only [bind, Except.bind] at h; cases h
    | ok image =>
      rw [hri] at h
      simp only [bind, Except.bind, pure, Except.pure] at h
      cases h
      rfl

/-- The security groups block leaves the emitted orientation unchanged. -/
theorem tfSecurityGroups_orientation (role : String) (e : Elastigroup) (tf : TerraformElastigroup) :
    (tfSecurityGroups role e tf).1.orientation = tf.orientation := rfl

/-- The user data block leaves the emitted orientation unchanged. -/
theorem tfUserData_orientation (e : Elastigroup) (tf : TerraformElastigroup) :
    (tfUserData e tf).1.orientation = tf.orientation := by
  unfold tfUserData
  cases hc : e.userData with
  | none => rfl
  | some v => rfl

/-- The IAM instance profile block leaves the emitted orientation unchanged. -/
theorem tfIAMInstanceProfile_orientation (e : Elastigroup) (tf : TerraformElastigroup) :
    (tfIAMInstanceProfile e tf).orientation = tf.orientation := by
  unfold tfIAMInstanceProfile
  cases hc : e.iamInstanceProfile with
  | none => rfl
  | some v => rfl

/-- The monitoring block leaves the emitted orientation unchanged. -/
theorem tfMonitoring_orientation (e : Elastigroup) (tf : TerraformElastigroup) :
    (tfMonitoring e tf).orientation = tf.orientation := by
  unfold tfMonitoring
  cases hc : e.monitoring with
  | none => rfl
  | some v => rfl

/-- The health check block leaves the emitted orientation unchanged. -/
theorem tfHealthCheck_orientation (e : Elastigroup) (tf : TerraformElastigroup) :
    (tfHealthCheck e tf).orientation = tf.orientation := by
  unfold tfHealthCheck
  cases hc : e.healthCheckType with
  | none => rfl
  | some v => rfl

/-- The SSH key block leaves the emitted orientation unchanged. -/
theorem tfSSHKey_orientation (e : Elastigroup) (tf : TerraformElastigroup) :
    (tfSSHKey e tf).orientation = tf.orientation := by
  unfold tfSSHKey
  cases hc : e.sshKey with
  | none => rfl
  | some v => rfl

/-- The subnets block leaves the emitted orientation unchanged. -/
theorem tfSubnets_orientation (role : String) (e : Elastigroup) (tf : TerraformElastigroup) :
    (tfSubnets role e tf).1.orientation = tf.orientation := rfl

/-- The load balancer block leaves the emitted orientation unchanged. -/
theorem tfLoadBalancers_orientation (e : Elastigroup) (tf : TerraformElastigroup) :
    (tfLoadBalancers e tf).orientation = tf.orientation := by
  unfold tfLoadBalancers
  cases hc : e.loadBalancer with
  | none => rfl
  | some v => rfl

/-- The public IP block leaves the emitted orientation unchanged. -/
theorem tfPublicIP_orientation (e : Elastigroup) (tf : TerraformElastigroup) :
    (tfPublicIP e tf).orientation = tf.orientation := by
  unfold tfPublicIP
  cases hc : e.associatePublicIP with
  | none => rfl
  | some v => rfl

/-- The pure reference blocks leave the emitted orientation unchanged. -/
theorem tfPureRefs_orientation (role : String) (e : Elastigroup) (tf : TerraformElastigroup) :
    (tfPureRefs role e tf).1.orientation = tf.orientation := by
  unfold tfPureRefs
  dsimp only
  rw [tfPublicIP_orientation, tfLoadBalancers_orientation, tfSubnets_orientation,
    tfSSHKey_orientation, tfHealthCheck_orientation, tfMonitoring_orientation,
    tfIAMInstanceProfile_orientation, tfUserData_orientation, tfSecurityGroups_orientation]

/-- The root volume block leaves the emitted orientation unchanged. -/
theorem tfRootVolume_orientation (env : CloudEnv) (e : Elastigroup) (tf tf2 : TerraformElastigroup)
    (h : tfRootVolume env e tf = .ok tf2) : tf2.orientation = tf.orientation := by
  unfold tfRootVolume at h
  cases hc : e.rootVolumeOpts with
  | none => rw [hc] at h; cases h; rfl
  | some opts =>
    rw [hc] at h
    dsimp only at h
    cases hbr : buildRootDevice env opts e.imageID with
    | error err => rw [hbr] at h; simp only [bind, Except.bind] at h; cases h
    | ok rootDevice =>
      rw [hbr] at h
      simp only [bind, Except.bind] at h
      cases heph : buildEphemeralDevices env e.onDemandInstanceType with
      | error err => rw [heph] at h; simp only [bind, Except.bind] at h; cases h
      | ok eph =>
        rw [heph] at h
        simp only [bind, Except.bind, pure, Except.pure] at h
        by_cases hlen : eph.length ≠ 0
        · rw [if_pos hlen] at h
          cases ho : opts.optimization with
          | none => rw [ho] at h; cases h; rfl
          | some b => rw [ho] at h; cases h; rfl
        · rw [if_neg hlen] at h
          cases ho : opts.optimization with
          | none => rw [ho] at h; cases h; rfl
          | some b => rw [ho] at h; cases h; rfl

/-- The auto-scaler block leaves the emitted orientation unchanged. -/
theorem tfAutoScaler_orientation (e : Elastigroup) (tf : TerraformElastigroup) :
    (tfAutoScaler e tf).orientation = tf.orientation := by
  unfold tfAutoScaler
  cases hc : e.autoScalerOpts with
  | none => rfl
  | some opts => rfl

/-- The tags block leaves the emitted orientation unchanged. -/
theorem tfTags_orientation (e : Elastigroup) (tf : TerraformElastigroup) :
    (tfTags e tf).orientation = tf.orientation := by
  unfold tfTags
  cases hc : e.tags with
  | none => rfl
  | some v => rfl

/-- A successful Terraform emission carries the normalized orientation of the
desired specification. -/
theorem renderTerraform_orientation (env : CloudEnv) (e : Elastigroup) (doc : TfDoc)
    (h : renderTerraform env e = .ok doc) :
    doc.resource.orientation = some (normalizeOrientation e.orientation).toStr := by
  unfold renderTerraform at h
  dsimp only at h
  cases h1 : tfImage env (applyDefaults e) (tfBase (applyDefaults e)) with
  | error err => rw [h1] at h; simp only [bind, Except.bind] at h; cases h
  | ok tf1 =>
    rw [h1] at h
    simp only [bind, Except.bind] at h
    cases h2 : extractRoleFromKeys "" (((applyDefaults e).tags.getD []).map Prod.fst) with
    | error err => rw [h2] at h; simp only [bind, Except.bind] at h; cases h
    | ok role =>
      rw [h2] at h
      simp only [bind, Except.bind] at h
      cases h3 : tfRootVolume env (applyDefaults e) (tfPureRefs role (applyDefaults e) tf1).1 with
      | error err => rw [h3] at h; simp only [bind, Except.bind] at h; cases h
      | ok tf2 =>
        rw [h3] at h
        simp only [bind, Except.bind, pure, Except.pure] at h
        cases h
        show (tfTags (applyDefaults e) (tfAutoScaler (applyDefaults e) tf2)).orientation = _
        rw [tfTags_orientation, tfAutoScaler_orientation,
          tfRootVolume_orientation env (applyDefaults e) _ tf2 h3, tfPureRefs_orientation,
          tfImage_orientation env (applyDefaults e) _ tf1 h1]
        show some (normalizeOrientation (applyDefaults e).orientation).toStr = _
        rw [normalizeOrientation_applyDefaults]

/-- A successful direct-apply create payload carries the normalized
orientation of the desired specification. -/
theorem createGroupPayload_orientation (env : CloudEnv) (e : Elastigroup) (g : AwsGroup)
    (h : createGroupPayload env e = .ok g) :
    (g.strategy.getD {}).availabilityVsCost = some (normalizeOrientation e.orientation).toStr := by
  unfold createGroupPayload at h
  dsimp only at h
  cases hls : createLaunchSpec env (applyDefaults e) with
  | error err => rw [hls] at h; simp only [bind, Except.bind] at h; cases h
  | ok ls =>
    rw [hls] at h
    simp only [bind, Except.bind, pure, Except.pure] at h
    cases h
    show some (normalizeOrientation (applyDefaults e).orientation).toStr = _
    rw [normalizeOrientation_applyDefaults]

/-- The orientation block of `update` stamps the normalized desired
orientation on the payload strategy. -/
theorem updOrientation_sets (e : Elastigroup) (s : UpdSt) (o : String)
    (h : s.ch.orientation = some o) :
    ((updOrientation e s).g.strategy.getD {}).availabilityVsCost =
      some (normalizeOrientation e.orientation).toStr := by
  unfold updOrientation
  rw [h]
  rfl

/-! Concrete environments and inputs for closed-input evaluations. -/

/-- A concrete cloud environment: a live group with capacity Target 4, a
resolvable image, no load balancers, no ephemeral devices, a successful
provider Update, and a provider Create that always succeeds. -/
def testEnv : CloudEnv :=
  { findGroup := .ok { id := some "sig-1", capacityTarget := 4, launchSpecImageId := "ami-1" }
    cloudResolveImage := fun _ => .ok (some { imageId := some "ami-1", rootDeviceName := some "/dev/xvda" })
    findELBByNameTag := fun _ => .ok none
    findELBV2ByNameTag := fun _ => .ok none
    machineTypeInfo := fun _ => .ok []
    base64Encode := fun str => str
    updateResult := .ok ()
    createResults := fun _ => .ok "sig-new" }

/-- Helper for the retry bound: when every attempt in the window returns a
structured error collection with a matching transient sub-error, the loop
runs on to attempt 11 and fails with the matching sub-error of the last
attempt, having slept 10 seconds before each attempt. -/
theorem createLoop_transient_run (results : Nat → CreateResp) (msgs : Nat → List String)
    (m : Nat → String)
    (hT : ∀ n, 1 ≤ n → n ≤ 11 →
      results n = .clientErrors (msgs n) ∧
      (msgs n).find? (fun msg => strContainsSub msg transientIAMProfileMsg) = some (m n)) :
    ∀ fuel k, fuel + k = 12 → k ≤ 10 →
      createLoop results fuel k (10 * k) =
        some { attempts := 11, sleepSeconds := 110,
               result := .error ("IAM instance profile not yet created/propagated (original error: " ++ m 11 ++ ")") } := by
  intro fuel
  induction fuel with
  | zero =>
    intro k hk _
    omega
  | succ f ih =>
    intro k hk hk10
    obtain ⟨hres, hfind⟩ := hT (k + 1) (by omega) (by omega)
    unfold createLoop
    dsimp only
    rw [hres]
    dsimp only
    rw [hfind]
    dsimp only
    by_cases hgt : k + 1 > createMaxAttempts
    · rw [if_pos hgt]
      have hk11 : k = 10 := by
        simp only [createMaxAttempts] at hgt
        omega
      subst hk11
      rfl
    · rw [if_neg hgt]
      have h10 : 10 * k + 10 = 10 * (k + 1) := by ring
      rw [h10]
      have hle : k + 1 ≤ 10 := by
        simp only [createMaxAttempts] at hgt
        omega
      exact ih (k + 1) (by omega) hle

/-- C1: a Create failing every attempt with a structured error collection
whose message matches the transient substring is retried with a fixed
10-second delay before every attempt until the attempt counter exceeds the
budget of 10, so 11 Create calls are issued in total (1 initial + 10
retries) with 110 seconds slept, and the budget-exhaustion error surfaces the
matching sub-error of the last attempt; a structured error whose messages do
not match is fatal on the first attempt with no retry. -/
theorem create_transient_retry_budget
    (res1 res2 : Nat → CreateResp) (msgs : Nat → List String) (m : Nat → String)
    (msgs2 : List String)
    (hT : ∀ n, 1 ≤ n → n ≤ 11 →
      res1 n = .clientErrors (msgs n) ∧
      (msgs n).find? (fun msg => strContainsSub msg transientIAMProfileMsg) = some (m n))
    (h2 : res2 1 = .clientErrors msgs2)
    (h2f : msgs2.find? (fun msg => strContainsSub msg transientIAMProfileMsg) = none) :
    createMaxAttempts = 10 ∧
    createLoop res1 12 0 0 =
      some { attempts := 11, sleepSeconds := 110,
             result := .error ("IAM instance profile not yet created/propagated (original error: " ++ m 11 ++ ")") } ∧
    createLoop res2 12 0 0 =
      some { attempts := 1, sleepSeconds := 10,
             result := .error ("spotinst: failed to create elastigroup: " ++ String.intercalate "; " msgs2) } := by
  refine ⟨rfl, ?_, ?_⟩
  · have h := createLoop_transient_run res1 msgs m hT 12 0 rfl (by omega)
    simpa using h
  · show createLoop res2 (11 + 1) 0 0 = _
    unfold createLoop
    dsimp only
    rw [h2]
    dsimp only
    rw [h2f]

/-- Closed run of the retry bound: a constant transient error exhausts the
budget after 11 attempts and 110 seconds of sleeping; a constant
non-matching error is fatal after 1 attempt. -/
theorem create_transient_retry_budget_witness :
    createLoop (fun _ => .clientErrors ["Invalid IAM Instance Profile name: kops-profile"]) 12 0 0 =
      some { attempts := 11, sleepSeconds := 110,
             result := .error "IAM instance profile not yet created/propagated (original error: Invalid IAM Instance Profile name: kops-profile)" } ∧
    createLoop (fun _ => .clientErrors ["quota exceeded"]) 12 0 0 =
      some { attempts := 1, sleepSeconds := 10,
             result := .error "spotinst: failed to create elastigroup: quota exceeded" } := by
  have h := create_transient_retry_budget
    (fun _ => .clientErrors ["Invalid IAM Instance Profile name: kops-profile"])
    (fun _ => .clientErrors ["quota exceeded"])
    (fun _ => ["Invalid IAM Instance Profile name: kops-profile"])
    (fun _ => "Invalid IAM Instance Profile name: kops-profile")
    ["quota exceeded"]
    (fun n _ _ => ⟨rfl, by
      show List.find? (fun msg => strContainsSub msg transientIAMProfileMsg)
          ["Invalid IAM Instance Profile name: kops-profile"] =
          some "Invalid IAM Instance Profile name: kops-profile"
      decide⟩) rfl (by decide)
  exact ⟨h.2.1, h.2.2⟩

/-- C3: when the provider List succeeds and no live group carries the desired
name, the executor is signalled to take the create path: CheckExisting
reports false (because the find helper treats absence as an error), so the
modelled executor dispatches Create instead of aborting the pass. -/
theorem find_absent_signals_create (groups : List LiveGroup) (name : String)
    (h : ∀ g ∈ groups, g.name ≠ name) :
    executorDispatch (.ok groups) name = .createPath := by
  have hf : groups.find? (fun g => g.name == name) = none := by
    rw [List.find?_eq_none]
    intro g hg
    simp [h g hg]
  have hfind : find (.ok groups) name =
      .error ("spotinst: failed to find elastigroup \"" ++ name ++ "\"") := by
    unfold find
    dsimp only
    rw [hf]
  unfold executorDispatch checkExisting
  rw [hfind]
  rfl

/-- Closed run: a List holding one group of a different name dispatches the
create path. -/
theorem find_absent_signals_create_witness :
    executorDispatch (.ok [{ name := "other" }]) "eg" = .createPath :=
  find_absent_signals_create [{ name := "other" }] "eg" (by decide)

/-- A desired specification with the identity field set but both capacity
bounds missing. -/
def eCapMissW : Elastigroup := { name := some "eg" }

/-- C8 counterexample: a desired spec with Name set but MinSize and MaxSize
unset passes CheckChanges with no error at all, so a missing capacity bound
is not reported as a required-field error before rendering. -/
theorem checkChanges_capacity_counterexample :
    eCapMissW.minSize = none ∧ eCapMissW.maxSize = none ∧
    checkChanges emptyElastigroup eCapMissW emptyElastigroup = none :=
  ⟨rfl, rfl, rfl⟩

/-- C8 (amended): precondition validation checks only the identity field
Name; a missing Name is reported as a required-field error regardless of
actual state, and no other field (in particular neither MinSize nor MaxSize)
is validated. -/
theorem checkChanges_only_name (a e changes : Elastigroup) :
    checkChanges a e changes =
      (if e.name = none then some (requiredField "Name") else none) := rfl

/-- Desired spec of the first capacity scenario: Min 2, Max 5. -/
def eCapA : Elastigroup := { name := some "eg", minSize := some 2, maxSize := some 5 }

/-- Delta of the first capacity scenario: only MaxSize changed. -/
def chCapA : Elastigroup := { maxSize := some 5 }

/-- Desired spec of the second capacity scenario: Min 5, Max 5. -/
def eCapB : Elastigroup := { name := some "eg", minSize := some 5, maxSize := some 5 }

/-- Delta of the second capacity scenario: MinSize and MaxSize changed. -/
def chCapB : Elastigroup := { minSize := some 5, maxSize := some 5 }

/-- C2: against a live group with Target 4, a delta holding only MaxSize 5
renders a capacity update setting only Maximum, leaving Minimum and Target
unset; a delta holding MinSize 5 and MaxSize 5 renders Minimum, Maximum and
raises Target to the desired MinSize; in general the MinSize block sets
Target iff the live Target is strictly below the desired MinSize. -/
theorem update_capacity_scenarios :
    (update testEnv emptyElastigroup eCapA chCapA =
      .ok { group := { id := some "sig-1",
                       capacity := some { minimum := none, maximum := some 5, target := none } },
            residual := emptyElastigroup, warned := false, updateCalled := true }) ∧
    (update testEnv emptyElastigroup eCapB chCapB =
      .ok { group := { id := some "sig-1",
                       capacity := some { minimum := some 5, maximum := some 5, target := some 5 } },
            residual := emptyElastigroup, warned := false, updateCalled := true }) ∧
    (∀ (actual : FoundGroup) (e : Elastigroup) (s : UpdSt) (mi : Int), s.ch.minSize = some mi →
      ((updMinSize actual e s).g.capacity.getD {}).target =
        (if actual.capacityTarget < e.minSize.getD 0 then some (e.minSize.getD 0)
         else (s.g.capacity.getD {}).target)) := by
  refine ⟨rfl, rfl, ?_⟩
  intro actual e s mi h
  unfold updMinSize
  rw [h]
  dsimp only
  by_cases hlt : actual.capacityTarget < e.minSize.getD 0
  · rw [if_pos hlt, if_pos hlt]
    rfl
  · rw [if_neg hlt, if_neg hlt]
    rfl

/-- Closed run of the Target rule: live Target 4, desired MinSize 5 raises
Target to 5. -/
theorem update_capacity_scenarios_witness :
    ((updMinSize { capacityTarget := 4 } eCapB
        { g := {}, ch := chCapB, changed := false }).g.capacity.getD {}).target = some 5 := by
  have h := update_capacity_scenarios.2.2 { capacityTarget := 4 } eCapB
    { g := {}, ch := chCapB, changed := false } 5 rfl
  rw [h]
  decide

/-- C5: the Delta of identical desired and actual states is empty (modelled
BuildChanges), and rendering an empty Delta is a no-op: when the initial find
succeeds, update returns nil having issued no provider Update call, touched
no change field, and emitted no warning. -/
theorem update_empty_delta_noop :
    (∀ e : Elastigroup, buildChanges e e = emptyElastigroup) ∧
    (∀ (env : CloudEnv) (a e : Elastigroup) (fg : FoundGroup), env.findGroup = .ok fg →
      update env a e emptyElastigroup =
        .ok { group := { id := fg.id }, residual := emptyElastigroup,
              warned := false, updateCalled := false }) := by
  constructor
  · intro e
    simp [buildChanges, diffField, emptyElastigroup]
  · intro env a e fg h
    unfold update
    rw [h]
    dsimp only [updHead, updRegion, updSpotPercentage, updOrientation, updFallbackToOnDemand,
      updUtilizeReservedInstances, updDrainingTimeout, updProduct, updOnDemandInstanceType,
      updSpotInstanceTypes, updSubnets, updSecurityGroups, updUserData, updAssociatePublicIP,
      updRootVolumeOpts, updImageID, updMid, updTags, updIAMInstanceProfile, updMonitoring,
      updSSHKey, updLoadBalancer, updTail, updTenancy, updHealthCheckType, updMinSize, updMaxSize,
      updAutoScaler, emptyElastigroup]
    rfl

/-- Closed run: an empty Delta against the test environment issues no Update
call and returns success. -/
theorem update_empty_delta_noop_witness :
    buildChanges eCapA eCapA = emptyElastigroup ∧
    update testEnv emptyElastigroup eCapA emptyElastigroup =
      .ok { group := { id := some "sig-1" }, residual := emptyElastigroup,
            warned := false, updateCalled := false } :=
  ⟨update_empty_delta_noop.1 eCapA,
   update_empty_delta_noop.2 testEnv emptyElastigroup eCapA _ rfl⟩

/-- Characterization of a successful root-device build: size and type are
copied, IOPS is kept only off gp2, Throughput only on gp3. -/
theorem buildRootDevice_ok_eq (env : CloudEnv) (volumeOpts : RootVolumeOpts)
    (imageID : Option String) (img : Image)
    (hri : resolveImage env (stringValue imageID) = .ok img) :
    buildRootDevice env volumeOpts imageID = .ok
      { deviceName := img.rootDeviceName
        ebsVolumeSize := volumeOpts.size
        ebsVolumeType := volumeOpts.type
        ebsVolumeIops :=
          if volumeOpts.iops ≠ none ∧ stringValue volumeOpts.type ≠ "gp2" then volumeOpts.iops
          else none
        ebsVolumeThroughput :=
          if volumeOpts.throughput ≠ none ∧ stringValue volumeOpts.type = "gp3" then volumeOpts.throughput
          else none
        ebsDeleteOnTermination := some true } := by
  unfold buildRootDevice
  rw [hri]
  simp only [bind, Except.bind, pure, Except.pure]
  by_cases h1 : volumeOpts.iops ≠ none ∧ stringValue volumeOpts.type ≠ "gp2"
  · by_cases h2 : volumeOpts.throughput ≠ none ∧ stringValue volumeOpts.type = "gp3"
    · simp only [if_pos h1, if_pos h2]
    · simp only [if_pos h1, if_neg h2]
  · by_cases h2 : volumeOpts.throughput ≠ none ∧ stringValue volumeOpts.type = "gp3"
    · simp only [if_neg h1, if_pos h2]
    · simp only [if_neg h1, if_neg h2]

/-- The converted EBS block never carries IOPS for a gp2 volume type. -/
theorem convert_iops_gp2 (bdmX : BlockDeviceMapping)
    (hty : stringValue bdmX.ebsVolumeType = "gp2") :
    ((convertBlockDeviceMapping bdmX).ebs.getD {}).iops = none := by
  unfold convertBlockDeviceMapping
  by_cases hc : bdmX.ebsDeleteOnTermination ≠ none ∨ bdmX.ebsVolumeSize ≠ none ∨ bdmX.ebsVolumeType ≠ none
  · rw [if_pos hc]
    dsimp only
    have h1 : ¬ (bdmX.ebsVolumeIops ≠ none ∧ stringValue bdmX.ebsVolumeType ≠ "gp2") := by
      simp [hty]
    rw [if_neg h1]
    by_cases h2 : bdmX.ebsVolumeThroughput ≠ none ∧ stringValue bdmX.ebsVolumeType = "gp3"
    · rw [if_pos h2]
      rfl
    · rw [if_neg h2]
      rfl
  · rw [if_neg hc]
    rfl

/-- The converted EBS block carries Throughput only when the source mapping
carries it and the volume type is gp3. -/
theorem convert_throughput_cond (bdmX : BlockDeviceMapping)
    (h : ((convertBlockDeviceMapping bdmX).ebs.getD {}).throughput ≠ none) :
    bdmX.ebsVolumeThroughput ≠ none ∧ stringValue bdmX.ebsVolumeType = "gp3" := by
  unfold convertBlockDeviceMapping at h
  by_cases hc : bdmX.ebsDeleteOnTermination ≠ none ∨ bdmX.ebsVolumeSize ≠ none ∨ bdmX.ebsVolumeType ≠ none
  · rw [if_pos hc] at h
    dsimp only at h
    by_cases h2 : bdmX.ebsVolumeThroughput ≠ none ∧ stringValue bdmX.ebsVolumeType = "gp3"
    · exact h2
    · rw [if_neg h2] at h
      by_cases h1 : bdmX.ebsVolumeIops ≠ none ∧ stringValue bdmX.ebsVolumeType ≠ "gp2"
      · rw [if_pos h1] at h
        exact absurd rfl h
      · rw [if_neg h1] at h
        exact absurd rfl h
  · rw [if_neg hc] at h
    exact absurd rfl h

/-- C6: a successful root-device build for a gp2 volume omits IOPS both on
the built mapping and on the provider EBS block it converts to; Throughput is
present on either form only when the volume type is gp3 — fields illegal for
the volume sub-kind are never sent. -/
theorem root_device_subkind_gating (env : CloudEnv) (volumeOpts : RootVolumeOpts)
    (imageID : Option String) (bdm : BlockDeviceMapping)
    (h : buildRootDevice env volumeOpts imageID = .ok bdm) :
    (volumeOpts.type = some "gp2" →
      bdm.ebsVolumeIops = none ∧ ((convertBlockDeviceMapping bdm).ebs.getD {}).iops = none) ∧
    (bdm.ebsVolumeThroughput ≠ none → volumeOpts.type = some "gp3") ∧
    (((convertBlockDeviceMapping bdm).ebs.getD {}).throughput ≠ none →
      volumeOpts.type = some "gp3") := by
  cases hri : resolveImage env (stringValue imageID) with
  | error err =>
    unfold buildRootDevice at h
    rw [hri] at h
    simp only [bind, Except.bind] at h
    cases h
  | ok img =>
    rw [buildRootDevice_ok_eq env volumeOpts imageID img hri] at h
    injection h with h
    subst h
    refine ⟨fun hty => ⟨?_, ?_⟩, fun hth => ?_, fun hth => ?_⟩
    · show (if volumeOpts.iops ≠ none ∧ stringValue volumeOpts.type ≠ "gp2" then volumeOpts.iops
        else none) = none
      rw [if_neg]
      simp [hty, stringValue]
    · apply convert_iops_gp2
      show stringValue volumeOpts.type = "gp2"
      rw [hty]
      rfl
    · revert hth
      show (if volumeOpts.throughput ≠ none ∧ stringValue volumeOpts.type = "gp3" then volumeOpts.throughput
        else none) ≠ none → volumeOpts.type = some "gp3"
      intro hth
      by_cases h2 : volumeOpts.throughput ≠ none ∧ stringValue volumeOpts.type = "gp3"
      · cases hty : volumeOpts.type with
        | none =>
          rw [hty] at h2
          exact absurd h2.2 (by simp [stringValue])
        | some sty =>
          obtain ⟨-, h2b⟩ := h2
          rw [hty] at h2b
          simp only [stringValue, Option.getD] at h2b
          rw [h2b]
      · rw [if_neg h2] at hth
        exact absurd rfl hth
    · obtain ⟨hne, hs⟩ := convert_throughput_cond _ hth
      revert hne
      show (if volumeOpts.throughput ≠ none ∧ stringValue volumeOpts.type = "gp3" then volumeOpts.throughput
        else none) ≠ none → volumeOpts.type = some "gp3"
      intro hth2
      by_cases h2 : volumeOpts.throughput ≠ none ∧ stringValue volumeOpts.type = "gp3"
      · cases hty : volumeOpts.type with
        | none =>
          rw [hty] at h2
          exact absurd h2.2 (by simp [stringValue])
        | some sty =>
          obtain ⟨-, h2b⟩ := h2
          rw [hty] at h2b
          simp only [stringValue, Option.getD] at h2b
          rw [h2b]
      · rw [if_neg h2] at hth2
        exact absurd rfl hth2

/-- A gp2 root volume with IOPS and Throughput configured. -/
def gp2OptsW : RootVolumeOpts :=
  { type := some "gp2", size := some 64, iops := some 100, throughput := some 125 }

/-- The root device built for the gp2 sample options. -/
def gp2BdmW : BlockDeviceMapping :=
  match buildRootDevice testEnv gp2OptsW (some "ami-1") with
  | .ok bdm => bdm
  | .error _ => {}

/-- Closed run: the gp2 sample build omits IOPS on both forms. -/
theorem root_device_subkind_gating_witness :
    gp2BdmW.ebsVolumeIops = none ∧
    ((convertBlockDeviceMapping gp2BdmW).ebs.getD {}).iops = none := by
  have h := root_device_subkind_gating testEnv gp2OptsW (some "ami-1") gp2BdmW rfl
  exact h.1 rfl

/-- True iff the renderer call returned without error. -/
def exceptOk {α : Type} (x : Except String α) : Bool :=
  match x with
  | .ok _ => true
  | .error _ => false

/-- An environment in which the referenced load-balancer name resolves to
both a classic (ELB) and a network (NLB) load balancer simultaneously. -/
def envBothW : CloudEnv :=
  { testEnv with
    findELBByNameTag := fun _ => .ok (some "lb-1")
    findELBV2ByNameTag := fun _ => .ok (some "lb-1") }

/-- C7 counterexample: on the update rendering path a name resolving to both
kinds raises no fatal ambiguity error — the update block succeeds. -/
theorem update_lb_ambiguity_counterexample :
    exceptOk (updLoadBalancer envBothW { name := some "eg", loadBalancer := some "lb-1" }
      { g := {}, ch := { loadBalancer := some "lb-1" }, changed := false }) = true ∧
    envBothW.findELBByNameTag "lb-1" = .ok (some "lb-1") ∧
    envBothW.findELBV2ByNameTag "lb-1" = .ok (some "lb-1") :=
  ⟨rfl, rfl, rfl⟩

/-- C7 (amended): in the create and Find rendering paths a load-balancer name
resolving simultaneously to both kinds is a fatal ambiguity; in the update
path the classic lookup takes precedence, the network lookup is skipped
whenever the classic one resolves, and the block succeeds applying a CLASSIC
load balancer with no ambiguity error. -/
theorem lb_ambiguity_amended :
    (∀ (env : CloudEnv) (e : Elastigroup) (ls : LaunchSpecification) (lb n1 n2 : String),
      e.loadBalancer = some lb →
      env.findELBByNameTag (stringValue e.loadBalancer) = .ok (some n1) →
      env.findELBV2ByNameTag (stringValue e.loadBalancer) = .ok (some n2) →
      createLoadBalancerStep env e ls = .error "found both elb and nlb:") ∧
    (∀ (env : CloudEnv) (e : Elastigroup) (lbName : Option String) (lb n1 n2 : String),
      e.loadBalancer = some lb →
      stringValue lbName ≠ stringValue e.loadBalancer →
      env.findELBV2ByNameTag (stringValue e.loadBalancer) = .ok (some n1) →
      env.findELBByNameTag (stringValue e.loadBalancer) = .ok (some n2) →
      findLoadBalancerActual env e [lbName] =
        .error ("spotinst: found both aws/elb (" ++ n2 ++ ") and aws/nlb (" ++ n1 ++ ")")) ∧
    (∀ (env : CloudEnv) (e : Elastigroup) (s : UpdSt) (lb n1 n2 : String),
      s.ch.loadBalancer = some lb →
      env.findELBByNameTag (stringValue e.loadBalancer) = .ok (some n1) →
      env.findELBV2ByNameTag (stringValue e.loadBalancer) = .ok (some n2) →
      ∃ s2, updLoadBalancer env e s = .ok s2 ∧ s2.changed = true ∧ s2.ch.loadBalancer = none ∧
        ((s2.g.compute.getD {}).launchSpecification.getD {}).loadBalancersConfig =
          some { loadBalancers := some [{ name := some n1, typ := some "CLASSIC" }] }) := by
  refine ⟨?_, ?_, ?_⟩
  · intro env e ls lb n1 n2 hlb helb hnlb
    unfold createLoadBalancerStep
    rw [hlb]
    dsimp only
    rw [hlb] at helb hnlb
    rw [helb]
    simp only [bind, Except.bind]
    rw [hnlb]
    simp [bind, Except.bind]
  · intro env e lbName lb n1 n2 hlb hne hnlb helb
    unfold findLoadBalancerActual
    dsimp only
    rw [if_pos ⟨by simp [hlb], hne⟩]
    rw [hnlb]
    simp only [bind, Except.bind]
    rw [helb]
    simp [bind, Except.bind, stringValue]
  · intro env e s lb n1 n2 hch helb hnlb
    unfold updLoadBalancer
    rw [hch]
    dsimp only
    rw [helb]
    simp only [bind, Except.bind, pure, Except.pure]
    exact ⟨_, rfl, rfl, rfl, rfl⟩

/-- Closed run of the amended rule: the create path fails on the doubly
resolving environment while the update path succeeds on it. -/
theorem lb_ambiguity_amended_witness :
    createLoadBalancerStep envBothW { name := some "eg", loadBalancer := some "lb-1" } {} =
      .error "found both elb and nlb:" :=
  lb_ambiguity_amended.1 envBothW { name := some "eg", loadBalancer := some "lb-1" } {}
    "lb-1" "lb-1" "lb-1" rfl rfl rfl

/-- A permutation of a list with at most one element is the identity. -/
theorem perm_short_eq {α : Type} {l1 l2 : List α} (h : l1.Perm l2) (hlen : l1.length ≤ 1) :
    l1 = l2 := by
  cases l1 with
  | nil => exact (List.perm_nil.mp h.symm).symm
  | cons a as =>
    cases as with
    | nil => exact List.singleton_perm.mp h
    | cons b bs => simp at hlen

/-- The desired specification with a given enumeration order for the Tags map
and for the auto-scaler Labels map. -/
def withTagsLabels (e : Elastigroup) (tagList labelList : List (String × String)) : Elastigroup :=
  { e with
    tags := some tagList
    autoScalerOpts := some { e.autoScalerOpts.getD {} with labels := some labelList } }

/-- The tags block of an emitted document (empty on error). -/
def tfDocTags (x : Except String TfDoc) : List TfKV :=
  match x with
  | .ok doc => doc.resource.tags
  | .error _ => []

/-- A two-entry Tags map enumerated in one order. -/
def eTagsA : Elastigroup := { name := some "eg", tags := some [("a", "1"), ("b", "2")] }

/-- The same two-entry Tags map enumerated in the other order. -/
def eTagsB : Elastigroup := { name := some "eg", tags := some [("b", "2"), ("a", "1")] }

/-- C9 counterexample: the same desired specification (its Tags map holds the
same two entries), enumerated by the Go map in two different orders, emits
two documents that differ in their tags block, so the emission is not
byte-identical across runs. -/
theorem renderTerraform_tag_order_counterexample :
    (eTagsA.tags.getD []).Perm (eTagsB.tags.getD []) ∧
    tfDocTags (renderTerraform testEnv eTagsA) ≠ tfDocTags (renderTerraform testEnv eTagsB) := by
  constructor
  · decide
  · decide

/-- C9 (amended): emission is deterministic as a function of the desired
specification together with the enumeration orders of the Tags and
auto-scaler Labels maps; byte-identical output across runs is therefore
guaranteed when those maps hold at most one entry each (where every
enumeration order coincides), while a multi-entry map enumerated in two
orders yields documents differing in entry order. -/
theorem renderTerraform_deterministic_given_order (env : CloudEnv) (e : Elastigroup)
    (t1 t2 l1 l2 : List (String × String))
    (ht : t1.Perm t2) (hl : l1.Perm l2) (ht1 : t1.length ≤ 1) (hl1 : l1.length ≤ 1) :
    renderTerraform env (withTagsLabels e t1 l1) = renderTerraform env (withTagsLabels e t2 l2) := by
  rw [perm_short_eq ht ht1, perm_short_eq hl hl1]

/-- Closed run of the amended rule at singleton maps. -/
theorem renderTerraform_deterministic_given_order_witness :
    renderTerraform testEnv (withTagsLabels { name := some "eg" } [("a", "1")] [("k", "v")]) =
      renderTerraform testEnv (withTagsLabels { name := some "eg" } [("a", "1")] [("k", "v")]) :=
  renderTerraform_deterministic_given_order testEnv { name := some "eg" }
    [("a", "1")] [("a", "1")] [("k", "v")] [("k", "v")]
    (List.Perm.refl _) (List.Perm.refl _) (by decide) (by decide)

/-- C10: normalizeOrientation is total with default `balanced`: nil, the
empty string and every string other than "cost", "availability" and
"equal-distribution" map to `balanced`; and all three renderers emit exactly
the normalized desired orientation — the create payload and the update
payload stamp it on the strategy and the Terraform document carries it in its
orientation field. -/
theorem normalizeOrientation_total_and_parity :
    normalizeOrientation none = .balanced ∧
    normalizeOrientation (some "") = .balanced ∧
    (∀ str : String, str ≠ "cost" → str ≠ "availability" → str ≠ "equal-distribution" →
      normalizeOrientation (some str) = .balanced) ∧
    (∀ (env : CloudEnv) (e : Elastigroup) (g : AwsGroup), createGroupPayload env e = .ok g →
      (g.strategy.getD {}).availabilityVsCost = some (normalizeOrientation e.orientation).toStr) ∧
    (∀ (e : Elastigroup) (s : UpdSt) (o : String), s.ch.orientation = some o →
      ((updOrientation e s).g.strategy.getD {}).availabilityVsCost =
        some (normalizeOrientation e.orientation).toStr) ∧
    (∀ (env : CloudEnv) (e : Elastigroup) (doc : TfDoc), renderTerraform env e = .ok doc →
      doc.resource.orientation = some (normalizeOrientation e.orientation).toStr) := by
  refine ⟨rfl, by decide, ?_, createGroupPayload_orientation, updOrientation_sets,
    renderTerraform_orientation⟩
  intro str h1 h2 h3
  unfold normalizeOrientation
  dsimp only
  rw [if_neg h1, if_neg h2, if_neg h3]

/-- A desired specification carrying a misspelled orientation. -/
def eOrientW : Elastigroup := { name := some "eg", orientation := some "unknown-mode" }

/-- An update state whose pending change is the misspelled orientation. -/
def updStOrientW : UpdSt := { g := {}, ch := { orientation := some "unknown-mode" }, changed := false }

/-- The document emitted for the misspelled-orientation sample. -/
def orientDocW : TfDoc :=
  match renderTerraform testEnv eOrientW with
  | .ok doc => doc
  | .error _ => { resourceType := "", resourceName := "", resource := {} }

/-- Closed runs: a misspelled orientation is silently normalized to balanced
by the pure normalizer, by the update payload and by the emitted document. -/
theorem normalizeOrientation_total_and_parity_witness :
    normalizeOrientation (some "unknown-mode") = .balanced ∧
    ((updOrientation eOrientW updStOrientW).g.strategy.getD {}).availabilityVsCost =
      some "balanced" ∧
    orientDocW.resource.orientation = some "balanced" := by
  refine ⟨normalizeOrientation_total_and_parity.2.2.1 "unknown-mode"
    (by decide) (by decide) (by decide), ?_, ?_⟩
  · have h := normalizeOrientation_total_and_parity.2.2.2.2.1 eOrientW updStOrientW
      "unknown-mode" rfl
    rw [h]
    decide
  · have h := normalizeOrientation_total_and_parity.2.2.2.2.2 testEnv eOrientW orientDocW rfl
    rw [h]
    decide

/-- C4: whenever `update` returns without error, every change field its
renderer consumed has been cleared to nil in the changes value — only the
load balancer field can survive (when neither provider lookup resolved) along
with the never-consumed identity fields — and the coverage-gap warning fires
exactly when the residual changes value is non-empty, while the call still
returns success. -/
theorem update_coverage_gap (env : CloudEnv) (a e ch : Elastigroup) (r : UpdateResult)
    (h : update env a e ch = .ok r) :
    r.residual.region = none ∧ r.residual.spotPercentage = none ∧ r.residual.orientation = none ∧
    r.residual.fallbackToOnDemand = none ∧ r.residual.utilizeReservedInstances = none ∧
    r.residual.drainingTimeout = none ∧ r.residual.product = none ∧
    r.residual.onDemandInstanceType = none ∧ r.residual.spotInstanceTypes = none ∧
    r.residual.subnets = none ∧ r.residual.securityGroups = none ∧ r.residual.userData = none ∧
    r.residual.associatePublicIP = none ∧ r.residual.rootVolumeOpts = none ∧
    r.residual.imageID = none ∧ r.residual.tags = none ∧ r.residual.iamInstanceProfile = none ∧
    r.residual.monitoring = none ∧ r.residual.sshKey = none ∧ r.residual.tenancy = none ∧
    r.residual.healthCheckType = none ∧ r.residual.minSize = none ∧ r.residual.maxSize = none ∧
    r.residual.autoScalerOpts = none ∧
    (r.residual.loadBalancer = none ∨ r.residual.loadBalancer = ch.loadBalancer) ∧
    r.residual.name = ch.name ∧ r.residual.lifecycle = ch.lifecycle ∧ r.residual.id = ch.id ∧
    (r.warned = true ↔ r.residual ≠ emptyElastigroup) := by
  unfold update at h
  cases hfg : env.findGroup with
  | error err => rw [hfg] at h; cases h
  | ok actual =>
    rw [hfg] at h
    dsimp only at h
    cases hu : updUserData env e (updHead e { g := { id := actual.id }, ch := ch, changed := false }) with
    | error err => rw [hu] at h; cases h
    | ok s1 =>
      rw [hu] at h
      dsimp only at h
      cases hrv : updRootVolumeOpts env e (updAssociatePublicIP s1) with
      | error err => rw [hrv] at h; cases h
      | ok s2 =>
        rw [hrv] at h
        dsimp only at h
        cases hi : updImageID env actual e s2 with
        | error err => rw [hi] at h; cases h
        | ok s3 =>
          rw [hi] at h
          dsimp only at h
          cases hlb : updLoadBalancer env e (updMid e s3) with
          | error err => rw [hlb] at h; cases h
          | ok s4 =>
            rw [hlb] at h
            dsimp only at h
            have hres : r.residual = (updTail actual a e s4).ch ∧
                r.warned = decide ((updTail actual a e s4).ch ≠ emptyElastigroup) := by
              by_cases hchg : (updTail actual a e s4).changed = true
              · rw [if_pos hchg] at h
                cases hur : env.updateResult with
                | error err => rw [hur] at h; cases h
                | ok u => rw [hur] at h; cases h; exact ⟨rfl, rfl⟩
              · rw [if_neg hchg] at h
                cases h
                exact ⟨rfl, rfl⟩
            obtain ⟨hres, hwarn⟩ := hres
            have hT := updTail_ch actual a e s4
            have hLB := updLoadBalancer_ch env e _ s4 hlb
            have hM := updMid_ch e s3
            have hI := updImageID_ch env actual e s2 s3 hi
            have hR := updRootVolumeOpts_ch env e _ s2 hrv
            have hA := updAssociatePublicIP_ch s1
            have hH := updHead_ch e ({ g := { id := actual.id }, ch := ch, changed := false } : UpdSt)
            have hU := updUserData_ch env e _ s1 hu
            rcases hLB with hLB | hLB
            · rw [hres, hT, hLB, hM, hI, hR, hA, hU, hH]
              refine ⟨rfl, rfl, rfl, rfl, rfl, rfl, rfl, rfl, rfl, rfl, rfl, rfl, rfl, rfl,
                rfl, rfl, rfl, rfl, rfl, rfl, rfl, rfl, rfl, rfl, Or.inl rfl, rfl, rfl, rfl, ?_⟩
              rw [hwarn, hT, hLB, hM, hI, hR, hA, hU, hH]
              exact decide_eq_true_iff
            · rw [hres, hT, hLB, hM, hI, hR, hA, hU, hH]
              refine ⟨rfl, rfl, rfl, rfl, rfl, rfl, rfl, rfl, rfl, rfl, rfl, rfl, rfl, rfl,
                rfl, rfl, rfl, rfl, rfl, rfl, rfl, rfl, rfl, rfl, Or.inr rfl, rfl, rfl, rfl, ?_⟩
              rw [hwarn, hT, hLB, hM, hI, hR, hA, hU, hH]
              exact decide_eq_true_iff

/-- A desired specification referencing a load balancer that resolves to
neither kind. -/
def eLbW : Elastigroup :=
  { name := some "eg", minSize := some 2, maxSize := some 2, loadBalancer := some "lb-1" }

/-- A delta whose only populated field is the unresolvable load balancer. -/
def chLbW : Elastigroup := { loadBalancer := some "lb-1" }

/-- The update outcome for the unresolvable load-balancer delta. -/
def lbResW : UpdateResult :=
  match update testEnv emptyElastigroup eLbW chLbW with
  | .ok r => r
  | .error _ => { group := {}, residual := {}, warned := false, updateCalled := false }

/-- Closed run: the load-balancer change survives rendering unapplied, the
coverage-gap warning fires, and the pass still succeeds. -/
theorem update_coverage_gap_witness :
    lbResW.residual.loadBalancer = some "lb-1" ∧ lbResW.warned = true ∧
    (lbResW.warned = true ↔ lbResW.residual ≠ emptyElastigroup) := by
  have h := update_coverage_gap testEnv emptyElastigroup eLbW chLbW lbResW rfl
  obtain ⟨-, -, -, -, -, -, -, -, -, -, -, -, -, -, -, -, -, -, -, -, -, -, -, -, -, -, -, -,
    hiff⟩ := h
  exact ⟨rfl, rfl, hiff⟩

end SpotinstTasks
